import Mathlib

/-!
Verification development for the CLI's actor-layer orchestration logic:
security-group binding/unbinding and listing workflows (v2 actor), the
space-scoped security-group fetches, and the v3 scale command workflow.

The workflows are shallowly embedded: the remote Cloud Controller client is a
record of deterministic response stubs, and every workflow returns, besides its
value, the ordered list of warnings it reports and a trace of the remote calls
it issued, mirroring what the repository's counterfeiter fakes observe.
-/

namespace CFCli

/-- A security group as returned by the v2 Cloud Controller client. -/
structure SecurityGroup where
  guid : String
  name : String
deriving DecidableEq, Repr

/-- An organization as returned by the v2 Cloud Controller client. -/
structure Organization where
  guid : String
  name : String
deriving DecidableEq, Repr

/-- A space as returned by the v2 Cloud Controller client; it carries a
back-reference to its owning organization by GUID. -/
structure Space where
  guid : String
  name : String
  organizationGUID : String
deriving DecidableEq, Repr

/-- Query filters used by the actor's filtered listings (the operator is always
equality and is omitted). -/
inductive QueryFilter where
  | nameFilter
  | organizationGUIDFilter
deriving DecidableEq, Repr

/-- An equality query sent to a filtered listing endpoint. -/
structure Query where
  filter : QueryFilter
  value : String
deriving DecidableEq, Repr

/-- The single name-equality query list used by the lookup resolvers. -/
def nameQuery (name : String) : List Query :=
  [⟨QueryFilter.nameFilter, name⟩]

/-- Errors flowing through the v2 actor workflows: client-level errors
(a generic error with a message, and the client's resource-not-found error)
together with the actor-level error kinds the tests pin. -/
inductive CCErr where
  | generic (msg : String)
  | resourceNotFound
  | securityGroupNotFound (name : String)
  | organizationNotFound (name : String)
  | spaceNotFound (name : String) (guid : String)
  | securityGroupNotBound (name : String) (lifecycle : String)
  | invalidLifecycle (lifecycle : String)
deriving DecidableEq, Repr

/-- The user-facing message of an error; the invalid-lifecycle error is
formatted exactly as the code formats it. -/
def CCErr.message : CCErr → String
  | .generic m => m
  | .resourceNotFound => "Resource not found"
  | .securityGroupNotFound n => "Security group " ++ n ++ " not found"
  | .organizationNotFound n => "Organization " ++ n ++ " not found"
  | .spaceNotFound n g => "Space " ++ n ++ g ++ " not found"
  | .securityGroupNotBound n l =>
      "Security group " ++ n ++ " not bound to this space for lifecycle phase " ++ l
  | .invalidLifecycle l => "Invalid lifecycle: " ++ l

/-- One remote call, recorded with its arguments, in the order the workflow
issued it. -/
inductive CCall where
  | getSecurityGroups (queries : Option (List Query))
  | getRunningSpacesBySecurityGroup (sgGUID : String)
  | getStagingSpacesBySecurityGroup (sgGUID : String)
  | getOrganization (orgGUID : String)
  | getOrganizations (queries : List Query)
  | getSpaces (queries : List Query)
  | getSpaceRunningSecurityGroupsBySpace (spaceGUID : String) (queries : Option (List Query))
  | getSpaceStagingSecurityGroupsBySpace (spaceGUID : String) (queries : Option (List Query))
  | associateSpaceWithRunningSecurityGroup (sgGUID spaceGUID : String)
  | associateSpaceWithStagingSecurityGroup (sgGUID spaceGUID : String)
  | removeSpaceFromRunningSecurityGroup (sgGUID spaceGUID : String)
  | removeSpaceFromStagingSecurityGroup (sgGUID spaceGUID : String)
deriving DecidableEq, Repr

/-- The Cloud Controller client, as a record of deterministic response stubs:
each operation returns its result, a list of warnings and an optional error,
as the counterfeiter fake does in the repository's tests. -/
structure CCClient where
  getSecurityGroups : Option (List Query) → List SecurityGroup × List String × Option CCErr
  getRunningSpacesBySecurityGroup : String → List Space × List String × Option CCErr
  getStagingSpacesBySecurityGroup : String → List Space × List String × Option CCErr
  getOrganization : String → Organization × List String × Option CCErr
  getOrganizations : List Query → List Organization × List String × Option CCErr
  getSpaces : List Query → List Space × List String × Option CCErr
  getSpaceRunningSecurityGroupsBySpace :
      String → Option (List Query) → List SecurityGroup × List String × Option CCErr
  getSpaceStagingSecurityGroupsBySpace :
      String → Option (List Query) → List SecurityGroup × List String × Option CCErr
  associateSpaceWithRunningSecurityGroup : String → String → List String × Option CCErr
  associateSpaceWithStagingSecurityGroup : String → String → List String × Option CCErr
  removeSpaceFromRunningSecurityGroup : String → String → List String × Option CCErr
  removeSpaceFromStagingSecurityGroup : String → String → List String × Option CCErr

/-- The warnings a given recorded call produced (re-reading the deterministic
stub). -/
def callWarnings (c : CCClient) : CCall → List String
  | .getSecurityGroups q => (c.getSecurityGroups q).2.1
  | .getRunningSpacesBySecurityGroup g => (c.getRunningSpacesBySecurityGroup g).2.1
  | .getStagingSpacesBySecurityGroup g => (c.getStagingSpacesBySecurityGroup g).2.1
  | .getOrganization g => (c.getOrganization g).2.1
  | .getOrganizations q => (c.getOrganizations q).2.1
  | .getSpaces q => (c.getSpaces q).2.1
  | .getSpaceRunningSecurityGroupsBySpace s q =>
      (c.getSpaceRunningSecurityGroupsBySpace s q).2.1
  | .getSpaceStagingSecurityGroupsBySpace s q =>
      (c.getSpaceStagingSecurityGroupsBySpace s q).2.1
  | .associateSpaceWithRunningSecurityGroup g s =>
      (c.associateSpaceWithRunningSecurityGroup g s).1
  | .associateSpaceWithStagingSecurityGroup g s =>
      (c.associateSpaceWithStagingSecurityGroup g s).1
  | .removeSpaceFromRunningSecurityGroup g s =>
      (c.removeSpaceFromRunningSecurityGroup g s).1
  | .removeSpaceFromStagingSecurityGroup g s =>
      (c.removeSpaceFromStagingSecurityGroup g s).1

/-- Concatenation, in call order, of the warnings of every call of a trace. -/
def joinedWarnings (c : CCClient) (t : List CCall) : List String :=
  (t.map (callWarnings c)).flatten

/-- Whether a recorded call is one of the two unbind ("remove from space")
mutations. -/
def CCall.isRemoveMutation : CCall → Bool
  | .removeSpaceFromRunningSecurityGroup _ _ => true
  | .removeSpaceFromStagingSecurityGroup _ _ => true
  | _ => false

/-- The result of a workflow that returns only warnings and an optional error,
together with the recorded call trace. -/
structure OpResult where
  warnings : List String
  err : Option CCErr
  trace : List CCall
deriving DecidableEq, Repr

/-- A lifecycle value is valid when it is `running` or `staging`. -/
def validLifecycle (lifecycle : String) : Prop :=
  lifecycle = "running" ∨ lifecycle = "staging"

instance (lifecycle : String) : Decidable (validLifecycle lifecycle) := by
  unfold validLifecycle; infer_instance

/-- The opposite lifecycle phase. -/
def otherLifecycle (lifecycle : String) : String :=
  if lifecycle = "running" then "staging" else "running"

/-- Modelled from the spec: `bindToSpace` of the Binding State Machine
(the implementation file `actor/v2action/security_group.go` is not under
`src/`; behavior is pinned by `src/actor/v2action/security_group_test.go`).
Validates the lifecycle, then dispatches to the running- or staging-specific
associate call, returning its warnings and error untouched. -/
def BindSecurityGroupToSpace (c : CCClient) (sgGUID spaceGUID lifecycle : String) : OpResult :=
  if lifecycle = "running" then
    let (w, e) := c.associateSpaceWithRunningSecurityGroup sgGUID spaceGUID
    ⟨w, e, [CCall.associateSpaceWithRunningSecurityGroup sgGUID spaceGUID]⟩
  else if lifecycle = "staging" then
    let (w, e) := c.associateSpaceWithStagingSecurityGroup sgGUID spaceGUID
    ⟨w, e, [CCall.associateSpaceWithStagingSecurityGroup sgGUID spaceGUID]⟩
  else ⟨[], some (CCErr.invalidLifecycle lifecycle), []⟩

/-- The space's bound-security-groups listing for a lifecycle phase, filtered
by group name, together with the call it records. Assumes a valid lifecycle
(`running` dispatches to the running list, anything else to the staging
list). -/
def spaceBoundGroups (c : CCClient) (lifecycle spaceGUID name : String) :
    (List SecurityGroup × List String × Option CCErr) × CCall :=
  if lifecycle = "running" then
    (c.getSpaceRunningSecurityGroupsBySpace spaceGUID (some (nameQuery name)),
     CCall.getSpaceRunningSecurityGroupsBySpace spaceGUID (some (nameQuery name)))
  else
    (c.getSpaceStagingSecurityGroupsBySpace spaceGUID (some (nameQuery name)),
     CCall.getSpaceStagingSecurityGroupsBySpace spaceGUID (some (nameQuery name)))

/-- The lifecycle-appropriate remove-from-space mutation, together with the
call it records. -/
def removeBinding (c : CCClient) (lifecycle sgGUID spaceGUID : String) :
    (List String × Option CCErr) × CCall :=
  if lifecycle = "running" then
    (c.removeSpaceFromRunningSecurityGroup sgGUID spaceGUID,
     CCall.removeSpaceFromRunningSecurityGroup sgGUID spaceGUID)
  else
    (c.removeSpaceFromStagingSecurityGroup sgGUID spaceGUID,
     CCall.removeSpaceFromStagingSecurityGroup sgGUID spaceGUID)

/-- Modelled from the spec: the shared binding check/mutate tail of both unbind
workflows. Checks the requested lifecycle's bound list (name-filtered); if
present, issues the lifecycle-appropriate remove mutation; if absent, checks
the opposite lifecycle's bound list, failing with the not-bound error naming
the requested lifecycle when present there, and succeeding as a no-op when
absent from both. -/
def unbindFromSpace (c : CCClient) (g : SecurityGroup) (spaceGUID lifecycle : String) :
    OpResult :=
  let ((bs, w1, e1), call1) := spaceBoundGroups c lifecycle spaceGUID g.name
  match e1 with
  | some e => ⟨w1, some e, [call1]⟩
  | none =>
    if bs.isEmpty then
      let ((bs2, w2, e2), call2) := spaceBoundGroups c (otherLifecycle lifecycle) spaceGUID g.name
      match e2 with
      | some e => ⟨w1 ++ w2, some e, [call1, call2]⟩
      | none =>
        if bs2.isEmpty then ⟨w1 ++ w2, none, [call1, call2]⟩
        else ⟨w1 ++ w2, some (CCErr.securityGroupNotBound g.name lifecycle), [call1, call2]⟩
    else
      let ((w2, e2), call2) := removeBinding c lifecycle g.guid spaceGUID
      ⟨w1 ++ w2, e2, [call1, call2]⟩

/-- Modelled from the spec: `unbindByNameAndSpace` (implementation absent from
`src/`; behavior pinned by the repository's tests). Validates the lifecycle
before any remote call, resolves the security group by name, then runs the
shared binding check/mutate tail. -/
def UnbindSecurityGroupByNameAndSpace (c : CCClient) (name spaceGUID lifecycle : String) :
    OpResult :=
  if validLifecycle lifecycle then
    let (gs, w1, e1) := c.getSecurityGroups (some (nameQuery name))
    let call1 := CCall.getSecurityGroups (some (nameQuery name))
    match e1 with
    | some e => ⟨w1, some e, [call1]⟩
    | none =>
      match gs with
      | [] => ⟨w1, some (CCErr.securityGroupNotFound name), [call1]⟩
      | g :: _ =>
        let r := unbindFromSpace c g spaceGUID lifecycle
        ⟨w1 ++ r.warnings, r.err, call1 :: r.trace⟩
  else ⟨[], some (CCErr.invalidLifecycle lifecycle), []⟩

/-- Modelled from the spec: `unbindByNameOrgNameAndSpaceName` (implementation
absent from `src/`; behavior pinned by the repository's tests). Validates the
lifecycle, resolves the security group by name, the organization by name, the
space by name scoped to the organization's GUID, then runs the shared binding
check/mutate tail, accumulating warnings at each step. -/
def UnbindSecurityGroupByNameOrganizationNameAndSpaceName
    (c : CCClient) (name orgName spaceName lifecycle : String) : OpResult :=
  if validLifecycle lifecycle then
    let (gs, w1, e1) := c.getSecurityGroups (some (nameQuery name))
    let call1 := CCall.getSecurityGroups (some (nameQuery name))
    match e1 with
    | some e => ⟨w1, some e, [call1]⟩
    | none =>
      match gs with
      | [] => ⟨w1, some (CCErr.securityGroupNotFound name), [call1]⟩
      | g :: _ =>
        let (os, w2, e2) := c.getOrganizations (nameQuery orgName)
        let call2 := CCall.getOrganizations (nameQuery orgName)
        match e2 with
        | some e => ⟨w1 ++ w2, some e, [call1, call2]⟩
        | none =>
          match os with
          | [] => ⟨w1 ++ w2, some (CCErr.organizationNotFound orgName), [call1, call2]⟩
          | o :: _ =>
            let spaceQ := [⟨QueryFilter.nameFilter, spaceName⟩,
                           ⟨QueryFilter.organizationGUIDFilter, o.guid⟩]
            let (sps, w3, e3) := c.getSpaces spaceQ
            let call3 := CCall.getSpaces spaceQ
            match e3 with
            | some e => ⟨w1 ++ w2 ++ w3, some e, [call1, call2, call3]⟩
            | none =>
              match sps with
              | [] => ⟨w1 ++ w2 ++ w3, some (CCErr.spaceNotFound spaceName ""),
                       [call1, call2, call3]⟩
              | s :: _ =>
                let r := unbindFromSpace c g s.guid lifecycle
                ⟨w1 ++ w2 ++ w3 ++ r.warnings, r.err, call1 :: call2 :: call3 :: r.trace⟩
  else ⟨[], some (CCErr.invalidLifecycle lifecycle), []⟩

/-- The result of the space-scoped security-group fetches. -/
structure GroupsResult where
  groups : List SecurityGroup
  warnings : List String
  err : Option CCErr
  trace : List CCall
deriving DecidableEq, Repr

/-- Modelled from the spec: `GetSpaceRunningSecurityGroupsBySpace`
(implementation absent from `src/`; the error remapping is pinned by the
repository's tests). Fetches the space's running bound list with no filter;
a client resource-not-found error is remapped to the space-not-found error
carrying the queried space GUID. -/
def GetSpaceRunningSecurityGroupsBySpace (c : CCClient) (spaceGUID : String) : GroupsResult :=
  let (gs, w, e) := c.getSpaceRunningSecurityGroupsBySpace spaceGUID none
  let t := [CCall.getSpaceRunningSecurityGroupsBySpace spaceGUID none]
  match e with
  | some CCErr.resourceNotFound => ⟨[], w, some (CCErr.spaceNotFound "" spaceGUID), t⟩
  | some e => ⟨[], w, some e, t⟩
  | none => ⟨gs, w, none, t⟩

/-- Modelled from the spec: `GetSpaceStagingSecurityGroupsBySpace`, the staging
counterpart, with the same resource-not-found remapping pinned by the
repository's tests. -/
def GetSpaceStagingSecurityGroupsBySpace (c : CCClient) (spaceGUID : String) : GroupsResult :=
  let (gs, w, e) := c.getSpaceStagingSecurityGroupsBySpace spaceGUID none
  let t := [CCall.getSpaceStagingSecurityGroupsBySpace spaceGUID none]
  match e with
  | some CCErr.resourceNotFound => ⟨[], w, some (CCErr.spaceNotFound "" spaceGUID), t⟩
  | some e => ⟨[], w, some e, t⟩
  | none => ⟨gs, w, none, t⟩

/-- A row of the listing workflow: one (security group, organization, space,
lifecycle) projection, or the sentinel "unbound" row with empty organization,
space and lifecycle. -/
structure SecurityGroupWithOrganizationSpaceAndLifecycle where
  securityGroup : SecurityGroup
  organization : Organization
  space : Space
  lifecycle : String
deriving DecidableEq, Repr

/-- Short alias for the listing row type. -/
abbrev Row := SecurityGroupWithOrganizationSpaceAndLifecycle

/-- A row before organization resolution: the space is `none` for the sentinel
row of a security group bound to no space. -/
structure RowPre where
  securityGroup : SecurityGroup
  space : Option Space
  lifecycle : String
deriving DecidableEq, Repr

/-- A security group together with its running- and staging-bound space
listings. -/
structure SecGroupSpaces where
  securityGroup : SecurityGroup
  runningSpaces : List Space
  stagingSpaces : List Space
deriving DecidableEq, Repr

/-- Result of the per-group space-listing phase of the listing workflow. -/
structure FetchRes where
  groupSpaces : List SecGroupSpaces
  warnings : List String
  err : Option CCErr
  trace : List CCall
deriving DecidableEq, Repr

/-- Modelled from the spec: the listing workflow's first phase. For every
security group of the unfiltered listing, in order, fetch its running and then
its staging space listings, accumulating warnings and aborting on the first
error (with all warnings gathered so far preserved). -/
def fetchGroupSpaces (c : CCClient) : List SecurityGroup → FetchRes
  | [] => ⟨[], [], none, []⟩
  | g :: gs =>
    let (rs, w1, e1) := c.getRunningSpacesBySecurityGroup g.guid
    let t1 := [CCall.getRunningSpacesBySecurityGroup g.guid]
    match e1 with
    | some e => ⟨[], w1, some e, t1⟩
    | none =>
      let (ss, w2, e2) := c.getStagingSpacesBySecurityGroup g.guid
      let t2 := t1 ++ [CCall.getStagingSpacesBySecurityGroup g.guid]
      match e2 with
      | some e => ⟨[], w1 ++ w2, some e, t2⟩
      | none =>
        let rest := fetchGroupSpaces c gs
        ⟨⟨g, rs, ss⟩ :: rest.groupSpaces, w1 ++ w2 ++ rest.warnings, rest.err, t2 ++ rest.trace⟩

/-- The pre-resolution rows of one security group: one running row per space of
the running listing, then one staging row per space of the staging listing; a
group bound to no space under either lifecycle yields exactly one sentinel
row. -/
def preRows (sg : SecGroupSpaces) : List RowPre :=
  if sg.runningSpaces.isEmpty && sg.stagingSpaces.isEmpty then
    [⟨sg.securityGroup, none, ""⟩]
  else
    sg.runningSpaces.map (fun s => ⟨sg.securityGroup, some s, "running"⟩) ++
      sg.stagingSpaces.map (fun s => ⟨sg.securityGroup, some s, "staging"⟩)

/-- A final row: the emitted space carries only GUID and name (its
organization back-reference is cleared), mirroring the projection the tests
pin. -/
def mkRow (g : SecurityGroup) (org : Organization) (sp : Space) (lc : String) : Row :=
  ⟨g, org, ⟨sp.guid, sp.name, ""⟩, lc⟩

/-- Result of resolving the organizations of a list of pre-rows. -/
structure ResolveRes where
  rows : List Row
  cache : List (String × Organization)
  warnings : List String
  err : Option CCErr
  trace : List CCall
deriving DecidableEq, Repr

/-- Modelled from the spec, adjusted where the repository's tests pin different
behavior: each row's organization is fetched by the space's organization GUID
through a cache, so a GUID already resolved earlier in the workflow triggers no
second fetch (the tests pin exactly one `GetOrganization` call per distinct
GUID, in first-appearance order). The sentinel row gets an empty organization
with no fetch. -/
def resolveRows (c : CCClient) (cache : List (String × Organization)) :
    List RowPre → ResolveRes
  | [] => ⟨[], cache, [], none, []⟩
  | r :: rs =>
    match r.space with
    | none =>
      let rest := resolveRows c cache rs
      ⟨⟨r.securityGroup, ⟨"", ""⟩, ⟨"", "", ""⟩, r.lifecycle⟩ :: rest.rows,
       rest.cache, rest.warnings, rest.err, rest.trace⟩
    | some sp =>
      match cache.lookup sp.organizationGUID with
      | some org =>
        let rest := resolveRows c cache rs
        ⟨mkRow r.securityGroup org sp r.lifecycle :: rest.rows,
         rest.cache, rest.warnings, rest.err, rest.trace⟩
      | none =>
        let (org, w, e) := c.getOrganization sp.organizationGUID
        let t := [CCall.getOrganization sp.organizationGUID]
        match e with
        | some e2 => ⟨[], cache, w, some e2, t⟩
        | none =>
          let rest := resolveRows c ((sp.organizationGUID, org) :: cache) rs
          ⟨mkRow r.securityGroup org sp r.lifecycle :: rest.rows,
           rest.cache, w ++ rest.warnings, rest.err, t ++ rest.trace⟩

/-- Result of resolving the organizations of all per-group row blocks. -/
structure BlocksRes where
  blocks : List (List Row)
  cache : List (String × Organization)
  warnings : List String
  err : Option CCErr
  trace : List CCall
deriving DecidableEq, Repr

/-- Organization resolution over the per-group row blocks, threading the cache
across groups and aborting on the first error. -/
def resolveBlocks (c : CCClient) (cache : List (String × Organization)) :
    List (List RowPre) → BlocksRes
  | [] => ⟨[], cache, [], none, []⟩
  | b :: bs =>
    let r1 := resolveRows c cache b
    match r1.err with
    | some e => ⟨[], r1.cache, r1.warnings, some e, r1.trace⟩
    | none =>
      let rest := resolveBlocks c r1.cache bs
      ⟨r1.rows :: rest.blocks, rest.cache, r1.warnings ++ rest.warnings, rest.err,
       r1.trace ++ rest.trace⟩

/-- Rank used to order lifecycles within a space: staging before running. -/
def lifecycleRank (lc : String) : ℕ :=
  if lc = "running" then 1 else 0

/-- A string's character codes, the form names are compared in. -/
def strChars (s : String) : List ℕ :=
  s.data.map Char.toNat

/-- Three-way comparison of two numbers. -/
def natCmp (a b : ℕ) : Ordering :=
  if a < b then Ordering.lt else if b < a then Ordering.gt else Ordering.eq

/-- Three-way lexicographic comparison of two code lists. -/
def natListCmp : List ℕ → List ℕ → Ordering
  | [], [] => Ordering.eq
  | [], _ :: _ => Ordering.lt
  | _ :: _, [] => Ordering.gt
  | a :: as, b :: bs =>
    match natCmp a b with
    | Ordering.eq => natListCmp as bs
    | o => o

/-- The sort key of a row: organization name, then space name, then the
lifecycle rank (staging before running). -/
def rowKey (r : Row) : List ℕ × List ℕ × ℕ :=
  (strChars r.organization.name, strChars r.space.name, lifecycleRank r.lifecycle)

/-- Three-way lexicographic comparison of row keys. -/
def keyCmp (x y : List ℕ × List ℕ × ℕ) : Ordering :=
  match natListCmp x.1 y.1 with
  | Ordering.eq =>
    match natListCmp x.2.1 y.2.1 with
    | Ordering.eq => natCmp x.2.2 y.2.2
    | o => o
  | o => o

/-- The row ordering the listing workflow sorts each security group's rows by:
organization name, then space name, then lifecycle, staging first. -/
def rowLe (a b : Row) : Prop :=
  keyCmp (rowKey a) (rowKey b) ≠ Ordering.gt

instance : DecidableRel rowLe := fun a b =>
  decidable_of_iff (keyCmp (rowKey a) (rowKey b) ≠ Ordering.gt) Iff.rfl

/-- One security group's block of rows, sorted. -/
def sortedBlock (b : List Row) : List Row :=
  List.insertionSort rowLe b

/-- The result of the listing workflow. -/
structure ListingResult where
  rows : List Row
  warnings : List String
  err : Option CCErr
  trace : List CCall
deriving DecidableEq, Repr

/-- Modelled from the spec, adjusted where the repository's tests pin different
behavior (implementation absent from `src/`): list every security group with
its bound organization/space/lifecycle rows. Security groups are processed in
listing order; per group the running then staging space listings are fetched;
organizations are resolved once per distinct GUID through a cache; each group's
rows are sorted by organization name, space name and lifecycle (staging first)
before being emitted, as the tests' expected output pins. -/
def GetSecurityGroupsWithOrganizationSpaceAndLifecycle (c : CCClient) : ListingResult :=
  let (gs, w0, e0) := c.getSecurityGroups none
  let t0 := [CCall.getSecurityGroups none]
  match e0 with
  | some e => ⟨[], w0, some e, t0⟩
  | none =>
    let f := fetchGroupSpaces c gs
    match f.err with
    | some e => ⟨[], w0 ++ f.warnings, some e, t0 ++ f.trace⟩
    | none =>
      let rb := resolveBlocks c [] (f.groupSpaces.map preRows)
      match rb.err with
      | some e => ⟨[], w0 ++ f.warnings ++ rb.warnings, some e, t0 ++ f.trace ++ rb.trace⟩
      | none =>
        ⟨(rb.blocks.map sortedBlock).flatten, w0 ++ f.warnings ++ rb.warnings, none,
         t0 ++ f.trace ++ rb.trace⟩

/-- A nullable integer: present/absent is distinguished from the value. -/
structure NullInt where
  value : Int
  isSet : Bool
deriving DecidableEq, Repr

/-- A nullable unsigned integer: present/absent is distinguished from the
value. -/
structure NullUint64 where
  value : ℕ
  isSet : Bool
deriving DecidableEq, Repr

/-- A v3 process: each scalable field is optional, so a scale payload carries
only the fields the caller supplied. -/
structure Process where
  type : String
  instances : NullInt
  memoryInMB : NullUint64
  diskInMB : NullUint64
deriving DecidableEq, Repr

/-- A v3 application. -/
structure Application where
  guid : String
  name : String
deriving DecidableEq, Repr

/-- Errors flowing through the v3 scale workflow: generic actor errors, the
application-not-found error, the poller's timeout sentinel, and the
user-facing startup-timeout error the command layer converts the sentinel
into. -/
inductive V3Err where
  | generic (msg : String)
  | applicationNotFound (name : String)
  | startupTimeout
  | translatableStartupTimeout (appName : String) (binaryName : String)
deriving DecidableEq, Repr

/-- Observable events of the scale workflow, in order: actor calls, the
restart confirmation prompt, the cancellation notice, and the final display of
the process's scale properties. -/
inductive ScaleEvent where
  | getAppCall (appName spaceGUID : String)
  | promptRestart
  | scalingCancelled
  | scaleCall (appGUID : String) (payload : Process)
  | stopCall (appGUID : String)
  | startCall (appGUID : String)
  | pollCall (appGUID : String)
  | fetchProcessCall (appGUID processType : String)
  | showProperties (p : Process)
deriving DecidableEq, Repr

/-- The v3 actor, as a record of deterministic stubs; the startup poller
returns the warning batches it emits over its channel, in emission order,
followed by its terminal error. -/
structure V3Actor where
  getApplicationByNameAndSpace : String → String → Application × List String × Option V3Err
  scaleProcessByApplication : String → Process → List String × Option V3Err
  stopApplication : String → List String × Option V3Err
  startApplication : String → List String × Option V3Err
  pollStart : String → List (List String) × Option V3Err
  getProcessByApplicationAndProcessType : String → String → Process × List String × Option V3Err

/-- The scale command's inputs: arguments, flags, and the targeted space and
binary name from config. -/
structure V3ScaleCommand where
  appName : String
  processType : String
  instances : NullInt
  diskLimit : NullUint64
  memoryLimit : NullUint64
  force : Bool
  spaceGUID : String
  binaryName : String
deriving DecidableEq, Repr

/-- The outcome of a scale command execution: the returned error, every
warning displayed in display order, and the ordered event log. -/
structure ScaleResult where
  err : Option V3Err
  warningsShown : List String
  events : List ScaleEvent
deriving DecidableEq, Repr

/-- Whether any scale field was supplied. -/
def anyScaleFlag (cmd : V3ScaleCommand) : Bool :=
  cmd.instances.isSet || cmd.memoryLimit.isSet || cmd.diskLimit.isSet

/-- Whether the supplied fields require an application restart: memory or disk
is among them (instance count alone does not). -/
def restartRequired (cmd : V3ScaleCommand) : Bool :=
  cmd.memoryLimit.isSet || cmd.diskLimit.isSet

/-- The partial process update sent by the scale mutation: exactly the
supplied fields, with the process type. -/
def scalePayload (cmd : V3ScaleCommand) : Process :=
  ⟨cmd.processType, cmd.instances, cmd.memoryLimit, cmd.diskLimit⟩

/-- Modelled from the spec: the workflow tail that re-fetches the process and
displays its scale properties, run on every non-fatal path. -/
def showCurrentScale (a : V3Actor) (cmd : V3ScaleCommand) (appGUID : String)
    (st : ScaleResult) : ScaleResult :=
  let (p, w, e) := a.getProcessByApplicationAndProcessType appGUID cmd.processType
  let ws := st.warningsShown ++ w
  let evs := st.events ++ [ScaleEvent.fetchProcessCall appGUID cmd.processType]
  match e with
  | some e2 => ⟨some e2, ws, evs⟩
  | none => ⟨none, ws, evs ++ [ScaleEvent.showProperties p]⟩

/-- Modelled from the spec: the restart sequence after a successful scale
mutation — stop, start, then poll for startup, forwarding every warning batch
the poller emitted, converting a poll timeout into the user-facing
startup-timeout error carrying the application name, and passing any other
poll error through unchanged. -/
def restartAndPoll (a : V3Actor) (cmd : V3ScaleCommand) (appGUID : String)
    (st : ScaleResult) : ScaleResult :=
  let (w1, e1) := a.stopApplication appGUID
  let st1 : ScaleResult :=
    ⟨none, st.warningsShown ++ w1, st.events ++ [ScaleEvent.stopCall appGUID]⟩
  match e1 with
  | some e => ⟨some e, st1.warningsShown, st1.events⟩
  | none =>
    let (w2, e2) := a.startApplication appGUID
    let st2 : ScaleResult :=
      ⟨none, st1.warningsShown ++ w2, st1.events ++ [ScaleEvent.startCall appGUID]⟩
    match e2 with
    | some e => ⟨some e, st2.warningsShown, st2.events⟩
    | none =>
      let (batches, e3) := a.pollStart appGUID
      let st3 : ScaleResult :=
        ⟨none, st2.warningsShown ++ batches.flatten, st2.events ++ [ScaleEvent.pollCall appGUID]⟩
      match e3 with
      | some V3Err.startupTimeout =>
          ⟨some (V3Err.translatableStartupTimeout cmd.appName cmd.binaryName),
           st3.warningsShown, st3.events⟩
      | some e => ⟨some e, st3.warningsShown, st3.events⟩
      | none => showCurrentScale a cmd appGUID st3

/-- Modelled from the spec: the scale mutation with the supplied fields,
followed by the restart sequence exactly when memory or disk was supplied, and
by the final re-fetch/display in every successful case. -/
def scaleProcess (a : V3Actor) (cmd : V3ScaleCommand) (appGUID : String)
    (st : ScaleResult) : ScaleResult :=
  let payload := scalePayload cmd
  let (w, e) := a.scaleProcessByApplication appGUID payload
  let st1 : ScaleResult :=
    ⟨none, st.warningsShown ++ w, st.events ++ [ScaleEvent.scaleCall appGUID payload]⟩
  match e with
  | some e2 => ⟨some e2, st1.warningsShown, st1.events⟩
  | none =>
    if restartRequired cmd then restartAndPoll a cmd appGUID st1
    else showCurrentScale a cmd appGUID st1

/-- Modelled from the spec: `V3ScaleCommand.Execute` after the boundary checks
(the implementation file `command/v3/v3_scale_command.go` is absent from
`src/`; behavior is pinned by its test file under `src/unnamed`). Resolves the
application; with no scale flag, shows the current scale; otherwise prompts
for confirmation when a restart is required and force is not set — a negative
or default answer cancels with no mutation and no error, still re-fetching and
displaying the scale properties — and otherwise scales, restarting when
required. `answer` is the user's reply to the confirmation prompt. -/
def V3ScaleCommandExecute (a : V3Actor) (cmd : V3ScaleCommand) (answer : Bool) : ScaleResult :=
  let (app, w0, e0) := a.getApplicationByNameAndSpace cmd.appName cmd.spaceGUID
  let st : ScaleResult := ⟨none, w0, [ScaleEvent.getAppCall cmd.appName cmd.spaceGUID]⟩
  match e0 with
  | some e => ⟨some e, st.warningsShown, st.events⟩
  | none =>
    if anyScaleFlag cmd then
      if restartRequired cmd && !cmd.force then
        let st1 : ScaleResult := ⟨none, st.warningsShown, st.events ++ [ScaleEvent.promptRestart]⟩
        if answer then scaleProcess a cmd app.guid st1
        else
          showCurrentScale a cmd app.guid
            ⟨none, st1.warningsShown, st1.events ++ [ScaleEvent.scalingCancelled]⟩
      else scaleProcess a cmd app.guid st
    else showCurrentScale a cmd app.guid st

/-- The arguments of the organization fetches of a trace, in call order. -/
def orgCallArgs (t : List CCall) : List String :=
  t.filterMap (fun call => match call with
    | CCall.getOrganization g => some g
    | _ => none)

/-- The organization GUIDs referenced by the bound (non-sentinel) rows of a
pre-row list, in row order. -/
def boundOrgGUIDs (rows : List RowPre) : List String :=
  rows.filterMap (fun r => r.space.map Space.organizationGUID)

/-- The first-appearance deduplication of a GUID list, relative to a list of
GUIDs already seen: a GUID is kept at its first not-yet-seen occurrence and
dropped at every later one. -/
def firstSeenFrom (seen : List String) : List String → List String
  | [] => []
  | g :: gs => if g ∈ seen then firstSeenFrom seen gs
               else g :: firstSeenFrom (g :: seen) gs

/-- The first-appearance deduplication of a GUID list: each distinct GUID
kept once, at the position of its first occurrence. -/
def firstSeen (l : List String) : List String :=
  firstSeenFrom [] l

/-- Whether a scale event is one of the restart-related steps: the
confirmation prompt, stop, start, or the startup poll. -/
def ScaleEvent.isRestartStep : ScaleEvent → Bool
  | .promptRestart => true
  | .stopCall _ => true
  | .startCall _ => true
  | .pollCall _ => true
  | _ => false

/-- Whether a scale event is the scale mutation or one of the restart actor
steps (stop, start, poll). -/
def ScaleEvent.isMutationStep : ScaleEvent → Bool
  | .scaleCall _ _ => true
  | .stopCall _ => true
  | .startCall _ => true
  | .pollCall _ => true
  | _ => false

/-- A client whose every stub returns an empty result with no warnings and no
error; concrete clients below override the stubs they exercise. -/
def emptyClient : CCClient where
  getSecurityGroups := fun _ => ([], [], none)
  getRunningSpacesBySecurityGroup := fun _ => ([], [], none)
  getStagingSpacesBySecurityGroup := fun _ => ([], [], none)
  getOrganization := fun _ => (⟨"", ""⟩, [], none)
  getOrganizations := fun _ => ([], [], none)
  getSpaces := fun _ => ([], [], none)
  getSpaceRunningSecurityGroupsBySpace := fun _ _ => ([], [], none)
  getSpaceStagingSecurityGroupsBySpace := fun _ _ => ([], [], none)
  associateSpaceWithRunningSecurityGroup := fun _ _ => ([], none)
  associateSpaceWithStagingSecurityGroup := fun _ _ => ([], none)
  removeSpaceFromRunningSecurityGroup := fun _ _ => ([], none)
  removeSpaceFromStagingSecurityGroup := fun _ _ => ([], none)

/-- Client for the wrong-lifecycle scenario: the group resolves, the space
resolves, the group is absent from the running bound list and present in the
staging bound list. -/
def wrongLifecycleClient : CCClient :=
  { emptyClient with
    getSecurityGroups := fun _ =>
      ([⟨"some-security-group-guid", "some-security-group"⟩], ["warning-1", "warning-2"], none)
    getOrganizations := fun _ =>
      ([⟨"some-org-guid", "some-org"⟩], ["warning-3", "warning-4"], none)
    getSpaces := fun _ =>
      ([⟨"some-space-guid", "some-space", "some-org-guid"⟩], ["warning-5", "warning-6"], none)
    getSpaceRunningSecurityGroupsBySpace := fun _ _ =>
      ([], ["warning-7", "warning-8"], none)
    getSpaceStagingSecurityGroupsBySpace := fun _ _ =>
      ([⟨"some-security-group-guid", "some-security-group"⟩], ["warning-9", "warning-10"], none) }

/-- Client for the unbound-from-both scenario: the group and scope resolve and
both bound lists are empty. -/
def unboundClient : CCClient :=
  { emptyClient with
    getSecurityGroups := fun _ =>
      ([⟨"some-security-group-guid", "some-security-group"⟩], ["warning-1", "warning-2"], none)
    getOrganizations := fun _ =>
      ([⟨"some-org-guid", "some-org"⟩], ["warning-3", "warning-4"], none)
    getSpaces := fun _ =>
      ([⟨"some-space-guid", "some-space", "some-org-guid"⟩], ["warning-5", "warning-6"], none)
    getSpaceRunningSecurityGroupsBySpace := fun _ _ =>
      ([], ["warning-7", "warning-8"], none)
    getSpaceStagingSecurityGroupsBySpace := fun _ _ =>
      ([], ["warning-9", "warning-10"], none) }

/-- Client whose space-scoped bound-list fetches fail with the client's
resource-not-found error. -/
def spaceMissingClient : CCClient :=
  { emptyClient with
    getSpaceRunningSecurityGroupsBySpace := fun _ _ => ([], [], some CCErr.resourceNotFound)
    getSpaceStagingSecurityGroupsBySpace := fun _ _ => ([], [], some CCErr.resourceNotFound) }

/-- Listing client with one security group bound (running) to two spaces whose
organizations sort in the opposite order to the space listing: the remote
running listing returns `space-2` (of `org-b`) before `space-1` (of
`org-a`). -/
def outOfOrderClient : CCClient :=
  { emptyClient with
    getSecurityGroups := fun _ => ([⟨"sg-guid-1", "sg-1"⟩], ["warning-1"], none)
    getRunningSpacesBySecurityGroup := fun _ =>
      ([⟨"space-guid-2", "space-2", "org-guid-b"⟩,
        ⟨"space-guid-1", "space-1", "org-guid-a"⟩], ["warning-2"], none)
    getOrganization := fun g =>
      if g = "org-guid-a" then (⟨"org-guid-a", "org-a"⟩, ["warning-a"], none)
      else (⟨"org-guid-b", "org-b"⟩, ["warning-b"], none) }

/-- Listing client with one security group bound (running) to two distinct
spaces owned by the same organization GUID. -/
def sharedOrgClient : CCClient :=
  { emptyClient with
    getSecurityGroups := fun _ => ([⟨"sg-guid-1", "sg-1"⟩], ["warning-1"], none)
    getRunningSpacesBySecurityGroup := fun _ =>
      ([⟨"space-guid-1", "space-1", "org-guid-x"⟩,
        ⟨"space-guid-2", "space-2", "org-guid-x"⟩], ["warning-2"], none)
    getOrganization := fun _ => (⟨"org-guid-x", "org-x"⟩, ["org-warning"], none) }

/-- A v3 actor stub for the scale workflow scenarios: the application and
process resolve, every mutation succeeds, and the poller emits one warning
batch before succeeding. -/
def scaleActor : V3Actor where
  getApplicationByNameAndSpace := fun _ _ =>
    (⟨"some-app-guid", "some-app"⟩, ["get-app-warning"], none)
  scaleProcessByApplication := fun _ _ => (["scale-warning"], none)
  stopApplication := fun _ => (["stop-warning"], none)
  startApplication := fun _ => (["start-warning"], none)
  pollStart := fun _ => ([["some-poll-warning-1", "some-poll-warning-2"]], none)
  getProcessByApplicationAndProcessType := fun _ _ =>
    (⟨"web", ⟨2, true⟩, ⟨50, true⟩, ⟨1024, true⟩⟩, ["get-instances-warning"], none)

/-- The scale actor with a poller that emits one warning batch and then times
out. -/
def timeoutActor : V3Actor :=
  { scaleActor with
    pollStart := fun _ =>
      ([["some-poll-warning-1", "some-poll-warning-2"]], some V3Err.startupTimeout) }

/-- The scale actor with a poller that emits one warning batch and then fails
with a generic error. -/
def pollFailActor : V3Actor :=
  { scaleActor with
    pollStart := fun _ =>
      ([["some-poll-warning-1", "some-poll-warning-2"]], some (V3Err.generic "some-error")) }

/-- Scale command inputs with only the instance count supplied. -/
def instancesOnlyCmd : V3ScaleCommand :=
  ⟨"some-app", "web", ⟨3, true⟩, ⟨0, false⟩, ⟨0, false⟩, false, "some-space-guid", "faceman"⟩

/-- Scale command inputs with instances, disk and memory supplied and no force
flag. -/
def allFlagsCmd : V3ScaleCommand :=
  ⟨"some-app", "web", ⟨2, true⟩, ⟨50, true⟩, ⟨100, true⟩, false, "some-space-guid", "faceman"⟩

/-- The client of the listing workflow's no-error test fixture: four security
groups, space listings returned in descending name order, one organization
GUID shared across groups, one group with no bindings. -/
def bigClient : CCClient :=
  { emptyClient with
    getSecurityGroups := fun _ =>
      ([⟨"security-group-guid-1", "security-group-1"⟩,
        ⟨"security-group-guid-2", "security-group-2"⟩,
        ⟨"security-group-guid-3", "security-group-3"⟩,
        ⟨"security-group-guid-4", "security-group-4"⟩],
       ["warning-1", "warning-2"], none)
    getRunningSpacesBySecurityGroup := fun g =>
      if g = "security-group-guid-1" then
        ([⟨"space-guid-13", "space-13", "org-guid-13"⟩,
          ⟨"space-guid-12", "space-12", "org-guid-12"⟩,
          ⟨"space-guid-11", "space-11", "org-guid-11"⟩],
         ["warning-3", "warning-4"], none)
      else if g = "security-group-guid-2" then
        ([⟨"space-guid-21", "space-21", "org-guid-21"⟩,
          ⟨"space-guid-23", "space-23", "org-guid-23"⟩,
          ⟨"space-guid-22", "space-22", "org-guid-11"⟩],
         ["warning-5", "warning-6"], none)
      else if g = "security-group-guid-3" then
        ([], ["warning-7", "warning-8"], none)
      else if g = "security-group-guid-4" then
        ([⟨"space-guid-31", "space-31", "org-guid-23"⟩,
          ⟨"space-guid-32", "space-32", "org-guid-11"⟩,
          ⟨"space-guid-33", "space-33", "org-guid-33"⟩],
         ["warning-9", "warning-10"], none)
      else ([], [], none)
    getStagingSpacesBySecurityGroup := fun g =>
      if g = "security-group-guid-1" then
        ([⟨"space-guid-13", "space-13", "org-guid-13"⟩,
          ⟨"space-guid-12", "space-12", "org-guid-12"⟩,
          ⟨"space-guid-11", "space-11", "org-guid-11"⟩],
         ["warning-3", "warning-4"], none)
      else ([], [], none)
    getOrganization := fun g =>
      if g = "org-guid-13" then (⟨"org-guid-13", "org-13"⟩, ["warning-11", "warning-12"], none)
      else if g = "org-guid-12" then (⟨"org-guid-12", "org-12"⟩, ["warning-13", "warning-14"], none)
      else if g = "org-guid-11" then (⟨"org-guid-11", "org-11"⟩, ["warning-15", "warning-16"], none)
      else if g = "org-guid-21" then (⟨"org-guid-21", "org-21"⟩, ["warning-17", "warning-18"], none)
      else if g = "org-guid-23" then (⟨"org-guid-23", "org-23"⟩, ["warning-19", "warning-20"], none)
      else if g = "org-guid-33" then (⟨"org-guid-33", "org-33"⟩, ["warning-25", "warning-26"], none)
      else (⟨"", ""⟩, [], none) }

theorem joinedWarnings_nil (c : CCClient) : joinedWarnings c [] = [] := rfl

theorem joinedWarnings_cons (c : CCClient) (a : CCall) (t : List CCall) :
    joinedWarnings c (a :: t) = callWarnings c a ++ joinedWarnings c t := by
  simp [joinedWarnings]

theorem joinedWarnings_append (c : CCClient) (t1 t2 : List CCall) :
    joinedWarnings c (t1 ++ t2) = joinedWarnings c t1 ++ joinedWarnings c t2 := by
  simp [joinedWarnings]

/-- C3: for every lifecycle value outside running and staging, each of the
bind and unbind operations fails with an error whose message is
"Invalid lifecycle: {value}" before issuing any remote call: the call trace is
empty. -/
theorem invalid_lifecycle_rejected_before_remote_calls
    (c : CCClient) (sgGUID spaceGUID name orgName spaceName lifecycle : String)
    (h : ¬ validLifecycle lifecycle) :
    BindSecurityGroupToSpace c sgGUID spaceGUID lifecycle
        = ⟨[], some (CCErr.invalidLifecycle lifecycle), []⟩
    ∧ UnbindSecurityGroupByNameAndSpace c name spaceGUID lifecycle
        = ⟨[], some (CCErr.invalidLifecycle lifecycle), []⟩
    ∧ UnbindSecurityGroupByNameOrganizationNameAndSpaceName c name orgName spaceName lifecycle
        = ⟨[], some (CCErr.invalidLifecycle lifecycle), []⟩
    ∧ (CCErr.invalidLifecycle lifecycle).message = "Invalid lifecycle: " ++ lifecycle := by
  have h1 : ¬ lifecycle = "running" := fun hr => h (Or.inl hr)
  have h2 : ¬ lifecycle = "staging" := fun hs => h (Or.inr hs)
  refine ⟨?_, ?_, ?_, rfl⟩
  · simp [BindSecurityGroupToSpace, h1, h2]
  · simp [UnbindSecurityGroupByNameAndSpace, h]
  · simp [UnbindSecurityGroupByNameOrganizationNameAndSpaceName, h]

theorem invalid_lifecycle_witness :
    ¬ validLifecycle "bill & ted"
    ∧ UnbindSecurityGroupByNameAndSpace emptyClient "some-security-group" "some-space-guid"
        "bill & ted" = ⟨[], some (CCErr.invalidLifecycle "bill & ted"), []⟩ :=
  ⟨by decide,
   (invalid_lifecycle_rejected_before_remote_calls emptyClient "sg-guid" "some-space-guid"
      "some-security-group" "some-org" "some-space" "bill & ted" (by decide)).2.1⟩

/-- C10: when the client's space-scoped security-group fetch fails with the
resource-not-found error, each of the two space-scoped fetch operations does
not pass that error through unwrapped: it returns the space-not-found error
carrying the queried space GUID, with the call's warnings. -/
theorem space_scoped_fetch_remaps_resource_not_found
    (c : CCClient) (spaceGUID : String)
    (gsR gsS : List SecurityGroup) (wR wS : List String)
    (hR : c.getSpaceRunningSecurityGroupsBySpace spaceGUID none
        = (gsR, wR, some CCErr.resourceNotFound))
    (hS : c.getSpaceStagingSecurityGroupsBySpace spaceGUID none
        = (gsS, wS, some CCErr.resourceNotFound)) :
    GetSpaceRunningSecurityGroupsBySpace c spaceGUID
        = ⟨[], wR, some (CCErr.spaceNotFound "" spaceGUID),
           [CCall.getSpaceRunningSecurityGroupsBySpace spaceGUID none]⟩
    ∧ GetSpaceStagingSecurityGroupsBySpace c spaceGUID
        = ⟨[], wS, some (CCErr.spaceNotFound "" spaceGUID),
           [CCall.getSpaceStagingSecurityGroupsBySpace spaceGUID none]⟩ := by
  constructor
  · simp [GetSpaceRunningSecurityGroupsBySpace, hR]
  · simp [GetSpaceStagingSecurityGroupsBySpace, hS]

theorem space_scoped_fetch_remap_witness :
    (GetSpaceRunningSecurityGroupsBySpace spaceMissingClient "space-guid").err
        = some (CCErr.spaceNotFound "" "space-guid") := by
  have h := space_scoped_fetch_remaps_resource_not_found spaceMissingClient "space-guid"
    [] [] [] [] rfl rfl
  rw [h.1]

theorem spaceBoundGroups_snd_not_remove (c : CCClient) (lifecycle spaceGUID name : String) :
    (spaceBoundGroups c lifecycle spaceGUID name).2.isRemoveMutation = false := by
  unfold spaceBoundGroups
  split <;> rfl

theorem unbindFromSpace_opposite_bound
    (c : CCClient) (g : SecurityGroup) (spaceGUID lifecycle : String)
    (w2 w3 : List String) (og : SecurityGroup) (ogs : List SecurityGroup)
    (hreq : (spaceBoundGroups c lifecycle spaceGUID g.name).1 = ([], w2, none))
    (hopp : (spaceBoundGroups c (otherLifecycle lifecycle) spaceGUID g.name).1
        = (og :: ogs, w3, none)) :
    unbindFromSpace c g spaceGUID lifecycle
      = ⟨w2 ++ w3, some (CCErr.securityGroupNotBound g.name lifecycle),
         [(spaceBoundGroups c lifecycle spaceGUID g.name).2,
          (spaceBoundGroups c (otherLifecycle lifecycle) spaceGUID g.name).2]⟩ := by
  unfold unbindFromSpace
  rcases hP : spaceBoundGroups c lifecycle spaceGUID g.name with ⟨⟨bs, w1x, e1⟩, call1⟩
  rw [hP] at hreq
  simp only [Prod.mk.injEq] at hreq
  obtain ⟨rfl, rfl, rfl⟩ := hreq
  rcases hQ : spaceBoundGroups c (otherLifecycle lifecycle) spaceGUID g.name with
    ⟨⟨bs2, w2x, e2⟩, call2⟩
  rw [hQ] at hopp
  simp only [Prod.mk.injEq] at hopp
  obtain ⟨rfl, rfl, rfl⟩ := hopp
  simp

theorem unbindFromSpace_unbound_noop
    (c : CCClient) (g : SecurityGroup) (spaceGUID lifecycle : String)
    (w2 w3 : List String)
    (hreq : (spaceBoundGroups c lifecycle spaceGUID g.name).1 = ([], w2, none))
    (hopp : (spaceBoundGroups c (otherLifecycle lifecycle) spaceGUID g.name).1
        = ([], w3, none)) :
    unbindFromSpace c g spaceGUID lifecycle
      = ⟨w2 ++ w3, none,
         [(spaceBoundGroups c lifecycle spaceGUID g.name).2,
          (spaceBoundGroups c (otherLifecycle lifecycle) spaceGUID g.name).2]⟩ := by
  unfold unbindFromSpace
  rcases hP : spaceBoundGroups c lifecycle spaceGUID g.name with ⟨⟨bs, w1x, e1⟩, call1⟩
  rw [hP] at hreq
  simp only [Prod.mk.injEq] at hreq
  obtain ⟨rfl, rfl, rfl⟩ := hreq
  rcases hQ : spaceBoundGroups c (otherLifecycle lifecycle) spaceGUID g.name with
    ⟨⟨bs2, w2x, e2⟩, call2⟩
  rw [hQ] at hopp
  simp only [Prod.mk.injEq] at hopp
  obtain ⟨rfl, rfl, rfl⟩ := hopp
  simp

/-- C2: for every unbind request (by name and space, or by name, organization
name and space name) where the security group resolves but is absent from the
requested lifecycle's bound list for the space and present in the opposite
lifecycle's bound list, the operation returns the not-bound error carrying the
group's name and the requested lifecycle, invokes neither remove mutation, and
still returns all accumulated warnings. -/
theorem unbind_wrong_lifecycle_not_bound_error
    (c : CCClient) (name orgName spaceName spaceGUID lifecycle : String)
    (g : SecurityGroup) (gs : List SecurityGroup) (w1 : List String)
    (o : Organization) (os : List Organization) (s : Space) (ss : List Space)
    (wo wsp : List String)
    (w2 w3 w2n w3n : List String) (og ogn : SecurityGroup) (ogs ogsn : List SecurityGroup)
    (hlc : validLifecycle lifecycle)
    (hg : c.getSecurityGroups (some (nameQuery name)) = (g :: gs, w1, none))
    (hreq : (spaceBoundGroups c lifecycle spaceGUID g.name).1 = ([], w2, none))
    (hopp : (spaceBoundGroups c (otherLifecycle lifecycle) spaceGUID g.name).1
        = (og :: ogs, w3, none))
    (ho : c.getOrganizations (nameQuery orgName) = (o :: os, wo, none))
    (hs : c.getSpaces [⟨QueryFilter.nameFilter, spaceName⟩,
            ⟨QueryFilter.organizationGUIDFilter, o.guid⟩] = (s :: ss, wsp, none))
    (hreqn : (spaceBoundGroups c lifecycle s.guid g.name).1 = ([], w2n, none))
    (hoppn : (spaceBoundGroups c (otherLifecycle lifecycle) s.guid g.name).1
        = (ogn :: ogsn, w3n, none)) :
    ((UnbindSecurityGroupByNameAndSpace c name spaceGUID lifecycle).err
        = some (CCErr.securityGroupNotBound g.name lifecycle)
     ∧ (UnbindSecurityGroupByNameAndSpace c name spaceGUID lifecycle).warnings
        = w1 ++ (w2 ++ w3)
     ∧ ∀ call ∈ (UnbindSecurityGroupByNameAndSpace c name spaceGUID lifecycle).trace,
         call.isRemoveMutation = false)
    ∧ ((UnbindSecurityGroupByNameOrganizationNameAndSpaceName c name orgName spaceName
          lifecycle).err = some (CCErr.securityGroupNotBound g.name lifecycle)
     ∧ (UnbindSecurityGroupByNameOrganizationNameAndSpaceName c name orgName spaceName
          lifecycle).warnings = w1 ++ wo ++ wsp ++ (w2n ++ w3n)
     ∧ ∀ call ∈ (UnbindSecurityGroupByNameOrganizationNameAndSpaceName c name orgName
          spaceName lifecycle).trace, call.isRemoveMutation = false) := by
  have hu1 := unbindFromSpace_opposite_bound c g spaceGUID lifecycle w2 w3 og ogs hreq hopp
  have hu2 := unbindFromSpace_opposite_bound c g s.guid lifecycle w2n w3n ogn ogsn hreqn hoppn
  constructor
  · unfold UnbindSecurityGroupByNameAndSpace
    rw [if_pos hlc, hg]
    simp only [hu1]
    refine ⟨trivial, trivial, ?_⟩
    intro call hcall
    simp only [List.mem_cons, List.mem_singleton] at hcall
    rcases hcall with rfl | rfl | rfl | h
    · rfl
    · exact spaceBoundGroups_snd_not_remove c lifecycle spaceGUID g.name
    · exact spaceBoundGroups_snd_not_remove c (otherLifecycle lifecycle) spaceGUID g.name
    · cases h
  · unfold UnbindSecurityGroupByNameOrganizationNameAndSpaceName
    rw [if_pos hlc, hg]
    simp only [ho, hs, hu2]
    refine ⟨trivial, by simp, ?_⟩
    intro call hcall
    simp only [List.mem_cons, List.mem_singleton] at hcall
    rcases hcall with rfl | rfl | rfl | rfl | rfl | h
    · rfl
    · rfl
    · rfl
    · exact spaceBoundGroups_snd_not_remove c lifecycle s.guid g.name
    · exact spaceBoundGroups_snd_not_remove c (otherLifecycle lifecycle) s.guid g.name
    · cases h

theorem unbind_wrong_lifecycle_witness :
    (UnbindSecurityGroupByNameAndSpace wrongLifecycleClient "some-security-group"
        "some-space-guid" "running").err
      = some (CCErr.securityGroupNotBound "some-security-group" "running")
    ∧ (UnbindSecurityGroupByNameAndSpace wrongLifecycleClient "some-security-group"
        "some-space-guid" "running").warnings
      = ["warning-1", "warning-2"] ++ (["warning-7", "warning-8"] ++ ["warning-9", "warning-10"])
    ∧ (UnbindSecurityGroupByNameOrganizationNameAndSpaceName wrongLifecycleClient
        "some-security-group" "some-org" "some-space" "running").err
      = some (CCErr.securityGroupNotBound "some-security-group" "running") := by
  have h := unbind_wrong_lifecycle_not_bound_error wrongLifecycleClient
    "some-security-group" "some-org" "some-space" "some-space-guid" "running"
    ⟨"some-security-group-guid", "some-security-group"⟩ [] ["warning-1", "warning-2"]
    ⟨"some-org-guid", "some-org"⟩ [] ⟨"some-space-guid", "some-space", "some-org-guid"⟩ []
    ["warning-3", "warning-4"] ["warning-5", "warning-6"]
    ["warning-7", "warning-8"] ["warning-9", "warning-10"]
    ["warning-7", "warning-8"] ["warning-9", "warning-10"]
    ⟨"some-security-group-guid", "some-security-group"⟩
    ⟨"some-security-group-guid", "some-security-group"⟩ [] []
    (Or.inl rfl) rfl rfl rfl rfl rfl rfl rfl
  exact ⟨h.1.1, h.1.2.1, h.2.1⟩

/-- C6: for every unbind request where the security group resolves but is
absent from both the requested and the opposite lifecycle's bound lists for
the space, the operation returns success with no remove mutation invoked and
all warnings gathered from the lookups — so a second unbind after a
successful one is a no-op success. -/
theorem unbind_absent_from_both_is_noop_success
    (c : CCClient) (name orgName spaceName spaceGUID lifecycle : String)
    (g : SecurityGroup) (gs : List SecurityGroup) (w1 : List String)
    (o : Organization) (os : List Organization) (s : Space) (ss : List Space)
    (wo wsp : List String)
    (w2 w3 w2n w3n : List String)
    (hlc : validLifecycle lifecycle)
    (hg : c.getSecurityGroups (some (nameQuery name)) = (g :: gs, w1, none))
    (hreq : (spaceBoundGroups c lifecycle spaceGUID g.name).1 = ([], w2, none))
    (hopp : (spaceBoundGroups c (otherLifecycle lifecycle) spaceGUID g.name).1
        = ([], w3, none))
    (ho : c.getOrganizations (nameQuery orgName) = (o :: os, wo, none))
    (hs : c.getSpaces [⟨QueryFilter.nameFilter, spaceName⟩,
            ⟨QueryFilter.organizationGUIDFilter, o.guid⟩] = (s :: ss, wsp, none))
    (hreqn : (spaceBoundGroups c lifecycle s.guid g.name).1 = ([], w2n, none))
    (hoppn : (spaceBoundGroups c (otherLifecycle lifecycle) s.guid g.name).1
        = ([], w3n, none)) :
    ((UnbindSecurityGroupByNameAndSpace c name spaceGUID lifecycle).err = none
     ∧ (UnbindSecurityGroupByNameAndSpace c name spaceGUID lifecycle).warnings
        = w1 ++ (w2 ++ w3)
     ∧ ∀ call ∈ (UnbindSecurityGroupByNameAndSpace c name spaceGUID lifecycle).trace,
         call.isRemoveMutation = false)
    ∧ ((UnbindSecurityGroupByNameOrganizationNameAndSpaceName c name orgName spaceName
          lifecycle).err = none
     ∧ (UnbindSecurityGroupByNameOrganizationNameAndSpaceName c name orgName spaceName
          lifecycle).warnings = w1 ++ wo ++ wsp ++ (w2n ++ w3n)
     ∧ ∀ call ∈ (UnbindSecurityGroupByNameOrganizationNameAndSpaceName c name orgName
          spaceName lifecycle).trace, call.isRemoveMutation = false) := by
  have hu1 := unbindFromSpace_unbound_noop c g spaceGUID lifecycle w2 w3 hreq hopp
  have hu2 := unbindFromSpace_unbound_noop c g s.guid lifecycle w2n w3n hreqn hoppn
  constructor
  · unfold UnbindSecurityGroupByNameAndSpace
    rw [if_pos hlc, hg]
    simp only [hu1]
    refine ⟨trivial, trivial, ?_⟩
    intro call hcall
    simp only [List.mem_cons, List.mem_singleton] at hcall
    rcases hcall with rfl | rfl | rfl | h
    · rfl
    · exact spaceBoundGroups_snd_not_remove c lifecycle spaceGUID g.name
    · exact spaceBoundGroups_snd_not_remove c (otherLifecycle lifecycle) spaceGUID g.name
    · cases h
  · unfold UnbindSecurityGroupByNameOrganizationNameAndSpaceName
    rw [if_pos hlc, hg]
    simp only [ho, hs, hu2]
    refine ⟨trivial, by simp, ?_⟩
    intro call hcall
    simp only [List.mem_cons, List.mem_singleton] at hcall
    rcases hcall with rfl | rfl | rfl | rfl | rfl | h
    · rfl
    · rfl
    · rfl
    · exact spaceBoundGroups_snd_not_remove c lifecycle s.guid g.name
    · exact spaceBoundGroups_snd_not_remove c (otherLifecycle lifecycle) s.guid g.name
    · cases h

theorem unbind_noop_witness :
    (UnbindSecurityGroupByNameAndSpace unboundClient "some-security-group"
        "some-space-guid" "running").err = none
    ∧ (UnbindSecurityGroupByNameAndSpace unboundClient "some-security-group"
        "some-space-guid" "running").warnings
      = ["warning-1", "warning-2"] ++ (["warning-7", "warning-8"] ++ ["warning-9", "warning-10"])
    ∧ (UnbindSecurityGroupByNameOrganizationNameAndSpaceName unboundClient
        "some-security-group" "some-org" "some-space" "running").err = none := by
  have h := unbind_absent_from_both_is_noop_success unboundClient
    "some-security-group" "some-org" "some-space" "some-space-guid" "running"
    ⟨"some-security-group-guid", "some-security-group"⟩ [] ["warning-1", "warning-2"]
    ⟨"some-org-guid", "some-org"⟩ [] ⟨"some-space-guid", "some-space", "some-org-guid"⟩ []
    ["warning-3", "warning-4"] ["warning-5", "warning-6"]
    ["warning-7", "warning-8"] ["warning-9", "warning-10"]
    ["warning-7", "warning-8"] ["warning-9", "warning-10"]
    (Or.inl rfl) rfl rfl rfl rfl rfl rfl rfl
  exact ⟨h.1.1, h.1.2.1, h.2.1⟩

theorem callWarnings_spaceBoundGroups (c : CCClient) (lifecycle spaceGUID name : String) :
    callWarnings c (spaceBoundGroups c lifecycle spaceGUID name).2
      = (spaceBoundGroups c lifecycle spaceGUID name).1.2.1 := by
  unfold spaceBoundGroups
  split <;> rfl

theorem callWarnings_removeBinding (c : CCClient) (lifecycle sgGUID spaceGUID : String) :
    callWarnings c (removeBinding c lifecycle sgGUID spaceGUID).2
      = (removeBinding c lifecycle sgGUID spaceGUID).1.1 := by
  unfold removeBinding
  split <;> rfl

theorem unbindFromSpace_warnings (c : CCClient) (g : SecurityGroup)
    (spaceGUID lifecycle : String) :
    (unbindFromSpace c g spaceGUID lifecycle).warnings
      = joinedWarnings c (unbindFromSpace c g spaceGUID lifecycle).trace := by
  have h1 := callWarnings_spaceBoundGroups c lifecycle spaceGUID g.name
  have h2 := callWarnings_spaceBoundGroups c (otherLifecycle lifecycle) spaceGUID g.name
  have h3 := callWarnings_removeBinding c lifecycle g.guid spaceGUID
  unfold unbindFromSpace
  rcases hP : spaceBoundGroups c lifecycle spaceGUID g.name with ⟨⟨bs, w1, e1⟩, call1⟩
  rw [hP] at h1
  dsimp only at h1 ⊢
  cases e1 with
  | some e => simp [joinedWarnings, h1]
  | none =>
    by_cases hbs : bs.isEmpty
    · rcases hQ : spaceBoundGroups c (otherLifecycle lifecycle) spaceGUID g.name with
        ⟨⟨bs2, w2, e2⟩, call2⟩
      rw [hQ] at h2
      dsimp only at h2 ⊢
      cases e2 with
      | some e => simp [joinedWarnings, h1, h2, hbs]
      | none =>
        by_cases hbs2 : bs2.isEmpty
        · simp [joinedWarnings, h1, h2, hbs, hbs2]
        · simp [joinedWarnings, h1, h2, hbs, hbs2]
    · rcases hR : removeBinding c lifecycle g.guid spaceGUID with ⟨⟨w2, e2⟩, call2⟩
      rw [hR] at h3
      dsimp only at h3 ⊢
      simp [joinedWarnings, h1, h3, hbs]

theorem unbindByNameAndSpace_warnings (c : CCClient) (name spaceGUID lifecycle : String) :
    (UnbindSecurityGroupByNameAndSpace c name spaceGUID lifecycle).warnings
      = joinedWarnings c (UnbindSecurityGroupByNameAndSpace c name spaceGUID lifecycle).trace := by
  unfold UnbindSecurityGroupByNameAndSpace
  by_cases hlc : validLifecycle lifecycle
  · rw [if_pos hlc]
    rcases hG : c.getSecurityGroups (some (nameQuery name)) with ⟨gs, w1, e1⟩
    have hw : callWarnings c (CCall.getSecurityGroups (some (nameQuery name))) = w1 := by
      simp [callWarnings, hG]
    cases e1 with
    | some e => simp [joinedWarnings, hw, hG]
    | none =>
      cases gs with
      | nil => simp [joinedWarnings, hw, hG]
      | cons g rest =>
        simp [joinedWarnings_cons, hw, hG, unbindFromSpace_warnings]
  · rw [if_neg hlc]
    rfl

theorem unbindByNames_warnings (c : CCClient) (name orgName spaceName lifecycle : String) :
    (UnbindSecurityGroupByNameOrganizationNameAndSpaceName c name orgName spaceName
        lifecycle).warnings
      = joinedWarnings c (UnbindSecurityGroupByNameOrganizationNameAndSpaceName c name
          orgName spaceName lifecycle).trace := by
  unfold UnbindSecurityGroupByNameOrganizationNameAndSpaceName
  by_cases hlc : validLifecycle lifecycle
  · rw [if_pos hlc]
    rcases hG : c.getSecurityGroups (some (nameQuery name)) with ⟨gs, w1, e1⟩
    have hw1 : callWarnings c (CCall.getSecurityGroups (some (nameQuery name))) = w1 := by
      simp [callWarnings, hG]
    cases e1 with
    | some e => simp [joinedWarnings, hw1, hG]
    | none =>
      cases gs with
      | nil => simp [joinedWarnings, hw1, hG]
      | cons g rest =>
        rcases hO : c.getOrganizations (nameQuery orgName) with ⟨os, w2, e2⟩
        have hw2 : callWarnings c (CCall.getOrganizations (nameQuery orgName)) = w2 := by
          simp [callWarnings, hO]
        cases e2 with
        | some e => simp [joinedWarnings, hw1, hw2, hG, hO]
        | none =>
          cases os with
          | nil => simp [joinedWarnings, hw1, hw2, hG, hO]
          | cons o orest =>
            rcases hS : c.getSpaces [⟨QueryFilter.nameFilter, spaceName⟩,
                ⟨QueryFilter.organizationGUIDFilter, o.guid⟩] with ⟨sps, w3, e3⟩
            have hw3 : callWarnings c (CCall.getSpaces [⟨QueryFilter.nameFilter, spaceName⟩,
                ⟨QueryFilter.organizationGUIDFilter, o.guid⟩]) = w3 := by
              simp [callWarnings, hS]
            cases e3 with
            | some e => simp [joinedWarnings, hw1, hw2, hw3, hG, hO, hS]
            | none =>
              cases sps with
              | nil => simp [joinedWarnings, hw1, hw2, hw3, hG, hO, hS]
              | cons s srest =>
                simp [joinedWarnings_cons, hw1, hw2, hw3, hG, hO, hS,
                  unbindFromSpace_warnings, List.append_assoc]
  · rw [if_neg hlc]
    rfl

theorem fetchGroupSpaces_warnings (c : CCClient) :
    ∀ gs : List SecurityGroup,
      (fetchGroupSpaces c gs).warnings = joinedWarnings c (fetchGroupSpaces c gs).trace := by
  intro gs
  induction gs with
  | nil => rfl
  | cons g rest ih =>
    unfold fetchGroupSpaces
    rcases hR : c.getRunningSpacesBySecurityGroup g.guid with ⟨rs, w1, e1⟩
    have hw1 : callWarnings c (CCall.getRunningSpacesBySecurityGroup g.guid) = w1 := by
      simp [callWarnings, hR]
    cases e1 with
    | some e => simp [joinedWarnings, hw1, hR]
    | none =>
      rcases hS : c.getStagingSpacesBySecurityGroup g.guid with ⟨ss, w2, e2⟩
      have hw2 : callWarnings c (CCall.getStagingSpacesBySecurityGroup g.guid) = w2 := by
        simp [callWarnings, hS]
      cases e2 with
      | some e => simp [joinedWarnings, hw1, hw2, hR, hS]
      | none =>
        simp [joinedWarnings, hw1, hw2, hR, hS, ih, List.append_assoc]

theorem resolveRows_warnings (c : CCClient) :
    ∀ (rows : List RowPre) (cache : List (String × Organization)),
      (resolveRows c cache rows).warnings = joinedWarnings c (resolveRows c cache rows).trace := by
  intro rows
  induction rows with
  | nil => intro cache; rfl
  | cons r rs ih =>
    intro cache
    unfold resolveRows
    cases hsp : r.space with
    | none => simp [hsp, ih]
    | some sp =>
      cases hlk : cache.lookup sp.organizationGUID with
      | some org => simp [hsp, hlk, ih]
      | none =>
        rcases hO : c.getOrganization sp.organizationGUID with ⟨org, w, e⟩
        have hw : callWarnings c (CCall.getOrganization sp.organizationGUID) = w := by
          simp [callWarnings, hO]
        cases e with
        | some e2 => simp [joinedWarnings, hsp, hlk, hO, hw]
        | none => simp [joinedWarnings, hsp, hlk, hO, hw, ih]

theorem resolveBlocks_warnings (c : CCClient) :
    ∀ (blocks : List (List RowPre)) (cache : List (String × Organization)),
      (resolveBlocks c cache blocks).warnings
        = joinedWarnings c (resolveBlocks c cache blocks).trace := by
  intro blocks
  induction blocks with
  | nil => intro cache; rfl
  | cons b bs ih =>
    intro cache
    unfold resolveBlocks
    have hrw := resolveRows_warnings c b cache
    cases hE : (resolveRows c cache b).err with
    | some e => simp [joinedWarnings, hE, hrw]
    | none => simp [joinedWarnings, hE, hrw, ih, List.append_assoc]

theorem listing_warnings (c : CCClient) :
    (GetSecurityGroupsWithOrganizationSpaceAndLifecycle c).warnings
      = joinedWarnings c (GetSecurityGroupsWithOrganizationSpaceAndLifecycle c).trace := by
  unfold GetSecurityGroupsWithOrganizationSpaceAndLifecycle
  rcases hG : c.getSecurityGroups none with ⟨gs, w0, e0⟩
  have hw0 : callWarnings c (CCall.getSecurityGroups none) = w0 := by
    simp [callWarnings, hG]
  cases e0 with
  | some e => simp [joinedWarnings, hw0, hG]
  | none =>
    have hfw := fetchGroupSpaces_warnings c gs
    have hrw := resolveBlocks_warnings c ((fetchGroupSpaces c gs).groupSpaces.map preRows) []
    cases hF : (fetchGroupSpaces c gs).err with
    | some e => simp [joinedWarnings, hw0, hG, hF, hfw, List.append_assoc]
    | none =>
      cases hR : (resolveBlocks c [] ((fetchGroupSpaces c gs).groupSpaces.map preRows)).err with
      | some e => simp [joinedWarnings, hw0, hG, hF, hR, hfw, hrw, List.append_assoc]
      | none => simp [joinedWarnings, hw0, hG, hF, hR, hfw, hrw, List.append_assoc]

/-- C1: for every multi-call workflow — unbind by name and space, unbind by
name, organization name and space name, and the listing workflow — the
warnings returned are the concatenation, in call order, of the warnings of
every remote call the workflow issued before it ended, on success and on
failure alike. -/
theorem warnings_accumulate_in_call_order
    (c : CCClient) (name orgName spaceName spaceGUID lifecycle : String) :
    (UnbindSecurityGroupByNameAndSpace c name spaceGUID lifecycle).warnings
        = joinedWarnings c (UnbindSecurityGroupByNameAndSpace c name spaceGUID lifecycle).trace
    ∧ (UnbindSecurityGroupByNameOrganizationNameAndSpaceName c name orgName spaceName
          lifecycle).warnings
        = joinedWarnings c (UnbindSecurityGroupByNameOrganizationNameAndSpaceName c name
            orgName spaceName lifecycle).trace
    ∧ (GetSecurityGroupsWithOrganizationSpaceAndLifecycle c).warnings
        = joinedWarnings c (GetSecurityGroupsWithOrganizationSpaceAndLifecycle c).trace :=
  ⟨unbindByNameAndSpace_warnings c name spaceGUID lifecycle,
   unbindByNames_warnings c name orgName spaceName lifecycle,
   listing_warnings c⟩

theorem execute_scale_path (a : V3Actor) (cmd : V3ScaleCommand) (answer : Bool)
    (app : Application) (wa : List String)
    (hmem : restartRequired cmd = true)
    (hconf : cmd.force = true ∨ answer = true)
    (happ : a.getApplicationByNameAndSpace cmd.appName cmd.spaceGUID = (app, wa, none)) :
    V3ScaleCommandExecute a cmd answer
      = scaleProcess a cmd app.guid
          ⟨none, wa, [ScaleEvent.getAppCall cmd.appName cmd.spaceGUID]
            ++ (if cmd.force then [] else [ScaleEvent.promptRestart])⟩ := by
  have hflag : anyScaleFlag cmd = true := by
    simp only [restartRequired, Bool.or_eq_true] at hmem
    simp only [anyScaleFlag, Bool.or_eq_true]
    tauto
  unfold V3ScaleCommandExecute
  by_cases hf : cmd.force
  · simp [happ, hflag, hmem, hf]
  · have hb : cmd.force = false := by simpa using hf
    have hans : answer = true := by
      rcases hconf with h | h
      · rw [h] at hb; cases hb
      · exact h
    simp [happ, hflag, hmem, hb, hans]

theorem scaleProcess_success_restart (a : V3Actor) (cmd : V3ScaleCommand) (appGUID : String)
    (st : ScaleResult) (ws w2 w3 : List String) (batches : List (List String))
    (hmem : restartRequired cmd = true)
    (hscale : a.scaleProcessByApplication appGUID (scalePayload cmd) = (ws, none))
    (hstop : a.stopApplication appGUID = (w2, none))
    (hstart : a.startApplication appGUID = (w3, none))
    (hpoll : a.pollStart appGUID = (batches, none)) :
    scaleProcess a cmd appGUID st
      = showCurrentScale a cmd appGUID
          ⟨none, st.warningsShown ++ ws ++ w2 ++ w3 ++ batches.flatten,
           st.events ++ [ScaleEvent.scaleCall appGUID (scalePayload cmd),
             ScaleEvent.stopCall appGUID, ScaleEvent.startCall appGUID,
             ScaleEvent.pollCall appGUID]⟩ := by
  unfold scaleProcess restartAndPoll
  simp [hscale, hmem, hstop, hstart, hpoll, List.append_assoc]

theorem scaleProcess_poll_err (a : V3Actor) (cmd : V3ScaleCommand) (appGUID : String)
    (st : ScaleResult) (ws w2 w3 : List String) (batches : List (List String)) (perr : V3Err)
    (hmem : restartRequired cmd = true)
    (hscale : a.scaleProcessByApplication appGUID (scalePayload cmd) = (ws, none))
    (hstop : a.stopApplication appGUID = (w2, none))
    (hstart : a.startApplication appGUID = (w3, none))
    (hpoll : a.pollStart appGUID = (batches, some perr)) :
    (scaleProcess a cmd appGUID st).warningsShown
        = st.warningsShown ++ ws ++ w2 ++ w3 ++ batches.flatten
    ∧ (perr = V3Err.startupTimeout →
        (scaleProcess a cmd appGUID st).err
          = some (V3Err.translatableStartupTimeout cmd.appName cmd.binaryName))
    ∧ (perr ≠ V3Err.startupTimeout → (scaleProcess a cmd appGUID st).err = some perr) := by
  unfold scaleProcess restartAndPoll
  refine ⟨?_, ?_, ?_⟩
  · cases perr <;> simp [hscale, hmem, hstop, hstart, hpoll, List.append_assoc]
  · intro hp
    subst hp
    simp [hscale, hmem, hstop, hstart, hpoll]
  · intro hp
    cases perr <;> simp [hscale, hmem, hstop, hstart, hpoll] <;> simp at hp

/-- C7: a scale invocation with at least one supplied field: when only the
instance count is supplied the workflow never emits the restart confirmation
prompt nor the stop, start or poll steps; when memory or disk is supplied,
after confirmation or with the force flag, and with each step succeeding, the
workflow performs the scale mutation, stop, start and the startup poll, each
exactly once and in that order. -/
theorem scale_restart_steps_iff_memory_or_disk
    (a : V3Actor) (cmd : V3ScaleCommand) (answer : Bool)
    (app : Application) (wa ws w2 w3 : List String) (batches : List (List String)) :
    ((cmd.instances.isSet = true ∧ cmd.memoryLimit.isSet = false ∧ cmd.diskLimit.isSet = false) →
      ∀ ev ∈ (V3ScaleCommandExecute a cmd answer).events, ev.isRestartStep = false)
    ∧ ((restartRequired cmd = true ∧ (cmd.force = true ∨ answer = true)
        ∧ a.getApplicationByNameAndSpace cmd.appName cmd.spaceGUID = (app, wa, none)
        ∧ a.scaleProcessByApplication app.guid (scalePayload cmd) = (ws, none)
        ∧ a.stopApplication app.guid = (w2, none)
        ∧ a.startApplication app.guid = (w3, none)
        ∧ a.pollStart app.guid = (batches, none)) →
      (V3ScaleCommandExecute a cmd answer).events.filter ScaleEvent.isMutationStep
        = [ScaleEvent.scaleCall app.guid (scalePayload cmd), ScaleEvent.stopCall app.guid,
           ScaleEvent.startCall app.guid, ScaleEvent.pollCall app.guid]) := by
  constructor
  · rintro ⟨hi, hm, hd⟩
    have hrr : restartRequired cmd = false := by simp [restartRequired, hm, hd]
    have hflag : anyScaleFlag cmd = true := by simp [anyScaleFlag, hi]
    unfold V3ScaleCommandExecute
    rcases happ : a.getApplicationByNameAndSpace cmd.appName cmd.spaceGUID with ⟨app0, w0, e0⟩
    cases e0 with
    | some e => simp [happ, ScaleEvent.isRestartStep]
    | none =>
      unfold scaleProcess
      rcases hs : a.scaleProcessByApplication app0.guid (scalePayload cmd) with ⟨ws0, es⟩
      cases es with
      | some e => simp [happ, hflag, hrr, hs, ScaleEvent.isRestartStep]
      | none =>
        unfold showCurrentScale
        rcases hp : a.getProcessByApplicationAndProcessType app0.guid cmd.processType with
          ⟨p, wp, ep⟩
        cases ep with
        | some e => simp [happ, hflag, hrr, hs, hp, ScaleEvent.isRestartStep]
        | none => simp [happ, hflag, hrr, hs, hp, ScaleEvent.isRestartStep]
  · rintro ⟨hmem, hconf, happ, hscale, hstop, hstart, hpoll⟩
    rw [execute_scale_path a cmd answer app wa hmem hconf happ,
      scaleProcess_success_restart a cmd app.guid _ ws w2 w3 batches hmem hscale hstop
        hstart hpoll]
    unfold showCurrentScale
    rcases hp : a.getProcessByApplicationAndProcessType app.guid cmd.processType with ⟨p, wp, ep⟩
    cases ep with
    | some e =>
      cases hf : cmd.force <;>
        simp [hp, hf, List.filter_append, ScaleEvent.isMutationStep]
    | none =>
      cases hf : cmd.force <;>
        simp [hp, hf, List.filter_append, ScaleEvent.isMutationStep]

theorem scale_restart_steps_witness :
    (∀ ev ∈ (V3ScaleCommandExecute scaleActor instancesOnlyCmd false).events,
        ev.isRestartStep = false)
    ∧ (V3ScaleCommandExecute scaleActor allFlagsCmd true).events.filter
        ScaleEvent.isMutationStep
      = [ScaleEvent.scaleCall "some-app-guid" (scalePayload allFlagsCmd),
         ScaleEvent.stopCall "some-app-guid", ScaleEvent.startCall "some-app-guid",
         ScaleEvent.pollCall "some-app-guid"] := by
  constructor
  · exact (scale_restart_steps_iff_memory_or_disk scaleActor instancesOnlyCmd false
      ⟨"some-app-guid", "some-app"⟩ [] [] [] [] []).1 ⟨rfl, rfl, rfl⟩
  · exact (scale_restart_steps_iff_memory_or_disk scaleActor allFlagsCmd true
      ⟨"some-app-guid", "some-app"⟩ ["get-app-warning"] ["scale-warning"] ["stop-warning"]
      ["start-warning"] [["some-poll-warning-1", "some-poll-warning-2"]]).2
      ⟨rfl, Or.inr rfl, rfl, rfl, rfl, rfl, rfl⟩

theorem showCurrentScale_err_none_last (a : V3Actor) (cmd : V3ScaleCommand) (appGUID : String)
    (st : ScaleResult) :
    (showCurrentScale a cmd appGUID st).err = none →
    ∃ p, (showCurrentScale a cmd appGUID st).events.getLast?
        = some (ScaleEvent.showProperties p) := by
  unfold showCurrentScale
  rcases hp : a.getProcessByApplicationAndProcessType appGUID cmd.processType with ⟨p, wp, ep⟩
  cases ep with
  | some e => simp [hp]
  | none =>
    intro _
    refine ⟨p, ?_⟩
    simp [hp, ← List.append_assoc]

theorem restartAndPoll_err_none_last (a : V3Actor) (cmd : V3ScaleCommand) (appGUID : String)
    (st : ScaleResult) :
    (restartAndPoll a cmd appGUID st).err = none →
    ∃ p, (restartAndPoll a cmd appGUID st).events.getLast?
        = some (ScaleEvent.showProperties p) := by
  unfold restartAndPoll
  rcases h1 : a.stopApplication appGUID with ⟨w1, e1⟩
  cases e1 with
  | some e => simp [h1]
  | none =>
    rcases h2 : a.startApplication appGUID with ⟨w2, e2⟩
    cases e2 with
    | some e => simp [h1, h2]
    | none =>
      rcases h3 : a.pollStart appGUID with ⟨batches, e3⟩
      cases e3 with
      | some e => cases e <;> simp [h1, h2, h3]
      | none =>
        simp only [h1, h2, h3]
        exact showCurrentScale_err_none_last a cmd appGUID _

theorem scaleProcess_err_none_last (a : V3Actor) (cmd : V3ScaleCommand) (appGUID : String)
    (st : ScaleResult) :
    (scaleProcess a cmd appGUID st).err = none →
    ∃ p, (scaleProcess a cmd appGUID st).events.getLast?
        = some (ScaleEvent.showProperties p) := by
  unfold scaleProcess
  rcases hs : a.scaleProcessByApplication appGUID (scalePayload cmd) with ⟨ws, es⟩
  cases es with
  | some e => simp [hs]
  | none =>
    cases hr : restartRequired cmd with
    | true =>
      simp only [hs, hr]
      exact restartAndPoll_err_none_last a cmd appGUID _
    | false =>
      simp only [hs, hr]
      exact showCurrentScale_err_none_last a cmd appGUID _

theorem execute_err_none_last (a : V3Actor) (cmd : V3ScaleCommand) (answer : Bool) :
    (V3ScaleCommandExecute a cmd answer).err = none →
    ∃ p, (V3ScaleCommandExecute a cmd answer).events.getLast?
        = some (ScaleEvent.showProperties p) := by
  unfold V3ScaleCommandExecute
  rcases happ : a.getApplicationByNameAndSpace cmd.appName cmd.spaceGUID with ⟨app, wa, e0⟩
  cases e0 with
  | some e => simp [happ]
  | none =>
    cases hflag : anyScaleFlag cmd with
    | false =>
      simp only [happ, hflag, Bool.false_eq_true, if_false]
      exact showCurrentScale_err_none_last a cmd app.guid _
    | true =>
      cases hcond : restartRequired cmd && !cmd.force with
      | false =>
        simp only [happ, hflag, hcond, if_true, Bool.false_eq_true, if_false]
        exact scaleProcess_err_none_last a cmd app.guid _
      | true =>
        cases answer with
        | true =>
          simp only [happ, hflag, hcond, if_true]
          exact scaleProcess_err_none_last a cmd app.guid _
        | false =>
          simp only [happ, hflag, hcond, if_true, Bool.false_eq_true, if_false]
          exact showCurrentScale_err_none_last a cmd app.guid _

/-- C8: a restart-requiring scale invocation without the force flag, answered
with the default or "n": the workflow performs no scale, stop or start call,
returns no error, and still finishes by re-fetching and displaying the
process's scale properties — as every path that returns no error ends with the
display of the re-fetched scale properties. -/
theorem scale_cancel_soft_and_still_displays
    (a : V3Actor) (cmd : V3ScaleCommand) (app : Application) (wa wp : List String) (p : Process)
    (hmem : restartRequired cmd = true) (hf : cmd.force = false)
    (happ : a.getApplicationByNameAndSpace cmd.appName cmd.spaceGUID = (app, wa, none))
    (hfetch : a.getProcessByApplicationAndProcessType app.guid cmd.processType
        = (p, wp, none)) :
    V3ScaleCommandExecute a cmd false
      = ⟨none, wa ++ wp,
         [ScaleEvent.getAppCall cmd.appName cmd.spaceGUID, ScaleEvent.promptRestart,
          ScaleEvent.scalingCancelled,
          ScaleEvent.fetchProcessCall app.guid cmd.processType, ScaleEvent.showProperties p]⟩
    ∧ ∀ (a2 : V3Actor) (cmd2 : V3ScaleCommand) (answer2 : Bool),
        (V3ScaleCommandExecute a2 cmd2 answer2).err = none →
        ∃ q, (V3ScaleCommandExecute a2 cmd2 answer2).events.getLast?
            = some (ScaleEvent.showProperties q) := by
  constructor
  · have hflag : anyScaleFlag cmd = true := by
      simp only [restartRequired, Bool.or_eq_true] at hmem
      simp only [anyScaleFlag, Bool.or_eq_true]
      tauto
    unfold V3ScaleCommandExecute showCurrentScale
    simp [happ, hflag, hmem, hf, hfetch]
  · exact execute_err_none_last

theorem scale_cancel_witness :
    V3ScaleCommandExecute scaleActor allFlagsCmd false
      = ⟨none, ["get-app-warning"] ++ ["get-instances-warning"],
         [ScaleEvent.getAppCall "some-app" "some-space-guid", ScaleEvent.promptRestart,
          ScaleEvent.scalingCancelled,
          ScaleEvent.fetchProcessCall "some-app-guid" "web",
          ScaleEvent.showProperties ⟨"web", ⟨2, true⟩, ⟨50, true⟩, ⟨1024, true⟩⟩]⟩ :=
  (scale_cancel_soft_and_still_displays scaleActor allFlagsCmd
    ⟨"some-app-guid", "some-app"⟩ ["get-app-warning"] ["get-instances-warning"]
    ⟨"web", ⟨2, true⟩, ⟨50, true⟩, ⟨1024, true⟩⟩ rfl rfl rfl rfl).1

/-- C9: in the scale workflow's polling phase, a poller timeout is returned as
the user-facing startup-timeout error carrying the application name, any other
poller error is returned unchanged, and in both cases every warning batch the
poller emitted before failing is forwarded. -/
theorem scale_poll_timeout_and_error_propagation
    (a : V3Actor) (cmd : V3ScaleCommand) (answer : Bool)
    (app : Application) (wa ws w2 w3 : List String) (batches : List (List String))
    (perr : V3Err)
    (hmem : restartRequired cmd = true)
    (hconf : cmd.force = true ∨ answer = true)
    (happ : a.getApplicationByNameAndSpace cmd.appName cmd.spaceGUID = (app, wa, none))
    (hscale : a.scaleProcessByApplication app.guid (scalePayload cmd) = (ws, none))
    (hstop : a.stopApplication app.guid = (w2, none))
    (hstart : a.startApplication app.guid = (w3, none))
    (hpoll : a.pollStart app.guid = (batches, some perr)) :
    (perr = V3Err.startupTimeout →
      (V3ScaleCommandExecute a cmd answer).err
        = some (V3Err.translatableStartupTimeout cmd.appName cmd.binaryName))
    ∧ (perr ≠ V3Err.startupTimeout →
      (V3ScaleCommandExecute a cmd answer).err = some perr)
    ∧ (V3ScaleCommandExecute a cmd answer).warningsShown
        = wa ++ ws ++ w2 ++ w3 ++ batches.flatten := by
  rw [execute_scale_path a cmd answer app wa hmem hconf happ]
  have h := scaleProcess_poll_err a cmd app.guid
    ⟨none, wa, [ScaleEvent.getAppCall cmd.appName cmd.spaceGUID]
      ++ (if cmd.force then [] else [ScaleEvent.promptRestart])⟩
    ws w2 w3 batches perr hmem hscale hstop hstart hpoll
  exact ⟨h.2.1, h.2.2, h.1⟩

theorem scale_poll_witness :
    ((V3ScaleCommandExecute timeoutActor allFlagsCmd true).err
        = some (V3Err.translatableStartupTimeout "some-app" "faceman"))
    ∧ ((V3ScaleCommandExecute pollFailActor allFlagsCmd true).err
        = some (V3Err.generic "some-error"))
    ∧ (V3ScaleCommandExecute timeoutActor allFlagsCmd true).warningsShown
        = ["get-app-warning"] ++ ["scale-warning"] ++ ["stop-warning"] ++ ["start-warning"]
          ++ [["some-poll-warning-1", "some-poll-warning-2"]].flatten := by
  have h1 := scale_poll_timeout_and_error_propagation timeoutActor allFlagsCmd true
    ⟨"some-app-guid", "some-app"⟩ ["get-app-warning"] ["scale-warning"] ["stop-warning"]
    ["start-warning"] [["some-poll-warning-1", "some-poll-warning-2"]]
    V3Err.startupTimeout rfl (Or.inr rfl) rfl rfl rfl rfl rfl
  have h2 := scale_poll_timeout_and_error_propagation pollFailActor allFlagsCmd true
    ⟨"some-app-guid", "some-app"⟩ ["get-app-warning"] ["scale-warning"] ["stop-warning"]
    ["start-warning"] [["some-poll-warning-1", "some-poll-warning-2"]]
    (V3Err.generic "some-error") rfl (Or.inr rfl) rfl rfl rfl rfl rfl
  exact ⟨h1.1 rfl, h2.2.1 (by simp), h1.2.2⟩

theorem natCmp_self (a : ℕ) : natCmp a a = Ordering.eq := by
  simp [natCmp]

theorem natCmp_eq_iff (a b : ℕ) : natCmp a b = Ordering.eq ↔ a = b := by
  unfold natCmp
  split_ifs <;> simp <;> omega

theorem natCmp_lt_iff (a b : ℕ) : natCmp a b = Ordering.lt ↔ a < b := by
  unfold natCmp
  split_ifs <;> simp <;> omega

theorem natCmp_gt_iff (a b : ℕ) : natCmp a b = Ordering.gt ↔ b < a := by
  unfold natCmp
  split_ifs <;> simp <;> omega

theorem natCmp_swap (a b : ℕ) : (natCmp a b).swap = natCmp b a := by
  unfold natCmp
  split_ifs <;> simp [Ordering.swap] <;> omega

theorem natListCmp_eq_iff : ∀ a b : List ℕ, natListCmp a b = Ordering.eq ↔ a = b := by
  intro a
  induction a with
  | nil => intro b; cases b <;> simp [natListCmp]
  | cons x xs ih =>
    intro b
    cases b with
    | nil => simp [natListCmp]
    | cons y ys =>
      unfold natListCmp
      cases h : natCmp x y with
      | lt =>
        simp only [List.cons.injEq]
        constructor
        · intro hc; cases hc
        · rintro ⟨rfl, rfl⟩
          rw [natCmp_self] at h
          cases h
      | eq =>
        have hxy : x = y := (natCmp_eq_iff x y).1 h
        subst hxy
        simp [ih]
      | gt =>
        simp only [List.cons.injEq]
        constructor
        · intro hc; cases hc
        · rintro ⟨rfl, rfl⟩
          rw [natCmp_self] at h
          cases h

theorem natListCmp_swap : ∀ a b : List ℕ, (natListCmp a b).swap = natListCmp b a := by
  intro a
  induction a with
  | nil => intro b; cases b <;> simp [natListCmp, Ordering.swap]
  | cons x xs ih =>
    intro b
    cases b with
    | nil => simp [natListCmp, Ordering.swap]
    | cons y ys =>
      unfold natListCmp
      cases h : natCmp x y with
      | lt =>
        have := natCmp_swap x y
        rw [h] at this
        rw [← this]
        simp [Ordering.swap]
      | eq =>
        have := natCmp_swap x y
        rw [h] at this
        rw [← this]
        simpa [Ordering.swap] using ih ys
      | gt =>
        have := natCmp_swap x y
        rw [h] at this
        rw [← this]
        simp [Ordering.swap]

theorem natListCmp_lt_trans :
    ∀ a b c : List ℕ, natListCmp a b = Ordering.lt → natListCmp b c = Ordering.lt →
      natListCmp a c = Ordering.lt := by
  intro a
  induction a with
  | nil =>
    intro b c h1 h2
    cases b with
    | nil => exact h2
    | cons y ys =>
      cases c with
      | nil => cases h2
      | cons z zs => simp [natListCmp]
  | cons x xs ih =>
    intro b c h1 h2
    cases b with
    | nil => cases h1
    | cons y ys =>
      cases c with
      | nil => cases h2
      | cons z zs =>
        unfold natListCmp at h1 h2 ⊢
        cases hxy : natCmp x y with
        | gt => rw [hxy] at h1; cases h1
        | lt =>
          cases hyz : natCmp y z with
          | gt => rw [hyz] at h2; cases h2
          | lt =>
            have hxz : natCmp x z = Ordering.lt := by
              rw [natCmp_lt_iff] at hxy hyz ⊢
              omega
            rw [hxz]
          | eq =>
            have := (natCmp_eq_iff y z).1 hyz
            subst this
            rw [hxy]
        | eq =>
          have := (natCmp_eq_iff x y).1 hxy
          subst this
          rw [hxy] at h1
          cases hyz : natCmp x z with
          | lt => rfl
          | eq =>
            have := (natCmp_eq_iff x z).1 hyz
            subst this
            rw [natCmp_self] at h2
            exact ih ys zs h1 h2
          | gt =>
            rw [hyz] at h2
            cases h2

theorem keyCmp_swap (x y : List ℕ × List ℕ × ℕ) : (keyCmp x y).swap = keyCmp y x := by
  unfold keyCmp
  cases h1 : natListCmp x.1 y.1 with
  | lt =>
    have := natListCmp_swap x.1 y.1
    rw [h1] at this
    rw [← this]
    simp [Ordering.swap]
  | gt =>
    have := natListCmp_swap x.1 y.1
    rw [h1] at this
    rw [← this]
    simp [Ordering.swap]
  | eq =>
    have := natListCmp_swap x.1 y.1
    rw [h1] at this
    rw [← this]
    simp only [Ordering.swap]
    cases h2 : natListCmp x.2.1 y.2.1 with
    | lt =>
      have t2 := natListCmp_swap x.2.1 y.2.1
      rw [h2] at t2
      rw [← t2]
      simp [Ordering.swap]
    | gt =>
      have t2 := natListCmp_swap x.2.1 y.2.1
      rw [h2] at t2
      rw [← t2]
      simp [Ordering.swap]
    | eq =>
      have t2 := natListCmp_swap x.2.1 y.2.1
      rw [h2] at t2
      rw [← t2]
      simp only [Ordering.swap]
      exact natCmp_swap x.2.2 y.2.2

theorem keyCmp_le_trans (x y z : List ℕ × List ℕ × ℕ)
    (h1 : keyCmp x y ≠ Ordering.gt) (h2 : keyCmp y z ≠ Ordering.gt) :
    keyCmp x z ≠ Ordering.gt := by
  unfold keyCmp at h1 h2 ⊢
  cases ha : natListCmp x.1 y.1 with
  | gt => rw [ha] at h1; exact absurd rfl h1
  | lt =>
    cases hb : natListCmp y.1 z.1 with
    | gt => rw [hb] at h2; exact absurd rfl h2
    | lt => rw [natListCmp_lt_trans x.1 y.1 z.1 ha hb]; simp
    | eq =>
      have := (natListCmp_eq_iff y.1 z.1).1 hb
      rw [← this, ha]
      simp
  | eq =>
    have hxy1 : x.1 = y.1 := (natListCmp_eq_iff x.1 y.1).1 ha
    rw [ha] at h1
    cases hb : natListCmp y.1 z.1 with
    | gt => rw [hb] at h2; exact absurd rfl h2
    | lt => rw [hxy1, hb]; simp
    | eq =>
      rw [hb] at h2
      rw [hxy1, hb]
      cases ha2 : natListCmp x.2.1 y.2.1 with
      | gt => rw [ha2] at h1; exact absurd rfl h1
      | lt =>
        cases hb2 : natListCmp y.2.1 z.2.1 with
        | gt => rw [hb2] at h2; exact absurd rfl h2
        | lt => rw [natListCmp_lt_trans x.2.1 y.2.1 z.2.1 ha2 hb2]; simp
        | eq =>
          have := (natListCmp_eq_iff y.2.1 z.2.1).1 hb2
          rw [← this, ha2]
          simp
      | eq =>
        have hxy2 : x.2.1 = y.2.1 := (natListCmp_eq_iff x.2.1 y.2.1).1 ha2
        rw [ha2] at h1
        cases hb2 : natListCmp y.2.1 z.2.1 with
        | gt => rw [hb2] at h2; exact absurd rfl h2
        | lt => rw [hxy2, hb2]; simp
        | eq =>
          rw [hb2] at h2
          rw [hxy2, hb2]
          dsimp only at h1 h2
          intro hc
          rw [natCmp_gt_iff] at hc
          simp only [ne_eq, natCmp_gt_iff] at h1 h2
          omega

instance : IsTrans Row rowLe :=
  ⟨fun a b c h1 h2 => keyCmp_le_trans (rowKey a) (rowKey b) (rowKey c) h1 h2⟩

instance : IsTotal Row rowLe := by
  refine ⟨fun a b => ?_⟩
  unfold rowLe
  cases h : keyCmp (rowKey a) (rowKey b) with
  | lt => left; simp [h]
  | eq => left; simp [h]
  | gt =>
    right
    have := keyCmp_swap (rowKey a) (rowKey b)
    rw [h] at this
    rw [← this]
    simp [Ordering.swap]

example :
    (GetSecurityGroupsWithOrganizationSpaceAndLifecycle bigClient).rows =
      [⟨⟨"security-group-guid-1", "security-group-1"⟩, ⟨"org-guid-11", "org-11"⟩,
        ⟨"space-guid-11", "space-11", ""⟩, "staging"⟩,
       ⟨⟨"security-group-guid-1", "security-group-1"⟩, ⟨"org-guid-11", "org-11"⟩,
        ⟨"space-guid-11", "space-11", ""⟩, "running"⟩,
       ⟨⟨"security-group-guid-1", "security-group-1"⟩, ⟨"org-guid-12", "org-12"⟩,
        ⟨"space-guid-12", "space-12", ""⟩, "staging"⟩,
       ⟨⟨"security-group-guid-1", "security-group-1"⟩, ⟨"org-guid-12", "org-12"⟩,
        ⟨"space-guid-12", "space-12", ""⟩, "running"⟩,
       ⟨⟨"security-group-guid-1", "security-group-1"⟩, ⟨"org-guid-13", "org-13"⟩,
        ⟨"space-guid-13", "space-13", ""⟩, "staging"⟩,
       ⟨⟨"security-group-guid-1", "security-group-1"⟩, ⟨"org-guid-13", "org-13"⟩,
        ⟨"space-guid-13", "space-13", ""⟩, "running"⟩,
       ⟨⟨"security-group-guid-2", "security-group-2"⟩, ⟨"org-guid-11", "org-11"⟩,
        ⟨"space-guid-22", "space-22", ""⟩, "running"⟩,
       ⟨⟨"security-group-guid-2", "security-group-2"⟩, ⟨"org-guid-21", "org-21"⟩,
        ⟨"space-guid-21", "space-21", ""⟩, "running"⟩,
       ⟨⟨"security-group-guid-2", "security-group-2"⟩, ⟨"org-guid-23", "org-23"⟩,
        ⟨"space-guid-23", "space-23", ""⟩, "running"⟩,
       ⟨⟨"security-group-guid-3", "security-group-3"⟩, ⟨"", ""⟩, ⟨"", "", ""⟩, ""⟩,
       ⟨⟨"security-group-guid-4", "security-group-4"⟩, ⟨"org-guid-11", "org-11"⟩,
        ⟨"space-guid-32", "space-32", ""⟩, "running"⟩,
       ⟨⟨"security-group-guid-4", "security-group-4"⟩, ⟨"org-guid-23", "org-23"⟩,
        ⟨"space-guid-31", "space-31", ""⟩, "running"⟩,
       ⟨⟨"security-group-guid-4", "security-group-4"⟩, ⟨"org-guid-33", "org-33"⟩,
        ⟨"space-guid-33", "space-33", ""⟩, "running"⟩] := by decide

example :
    orgCallArgs (GetSecurityGroupsWithOrganizationSpaceAndLifecycle bigClient).trace
      = ["org-guid-13", "org-guid-12", "org-guid-11", "org-guid-21", "org-guid-23",
         "org-guid-33"] := by decide

theorem fetchGroupSpaces_groups (c : CCClient) :
    ∀ gs : List SecurityGroup, (fetchGroupSpaces c gs).err = none →
      List.Forall₂ (fun (sgs : SecGroupSpaces) (g : SecurityGroup) => sgs.securityGroup = g)
        (fetchGroupSpaces c gs).groupSpaces gs := by
  intro gs
  induction gs with
  | nil => intro _; exact List.Forall₂.nil
  | cons g rest ih =>
    intro herr
    unfold fetchGroupSpaces at herr ⊢
    rcases hR : c.getRunningSpacesBySecurityGroup g.guid with ⟨rs, w1, e1⟩
    cases e1 with
    | some e => rw [hR] at herr; simp at herr
    | none =>
      rcases hS : c.getStagingSpacesBySecurityGroup g.guid with ⟨ss, w2, e2⟩
      cases e2 with
      | some e => rw [hR, hS] at herr; simp at herr
      | none =>
        rw [hR, hS] at herr
        dsimp only at herr ⊢
        exact List.Forall₂.cons rfl (ih herr)

theorem preRows_group (sg : SecGroupSpaces) :
    ∀ r ∈ preRows sg, r.securityGroup = sg.securityGroup := by
  intro r hr
  unfold preRows at hr
  split at hr
  · simp at hr
    rw [hr]
  · rw [List.mem_append] at hr
    rcases hr with h | h <;>
      (rw [List.mem_map] at h; rcases h with ⟨s, _, rfl⟩; rfl)

theorem resolveRows_group (c : CCClient) :
    ∀ (rows : List RowPre) (cache : List (String × Organization)) (g : SecurityGroup),
      (∀ r ∈ rows, r.securityGroup = g) →
      ∀ r' ∈ (resolveRows c cache rows).rows, r'.securityGroup = g := by
  intro rows
  induction rows with
  | nil => intro cache g _ r' hr'; simp [resolveRows] at hr'
  | cons r rs ih =>
    intro cache g hall r' hr'
    have hhead : r.securityGroup = g := hall r (by simp)
    have htail : ∀ x ∈ rs, x.securityGroup = g := fun x hx => hall x (by simp [hx])
    unfold resolveRows at hr'
    cases hsp : r.space with
    | none =>
      rw [hsp] at hr'
      dsimp only at hr'
      rcases List.mem_cons.1 hr' with rfl | hmem
      · exact hhead
      · exact ih cache g htail r' hmem
    | some sp =>
      rw [hsp] at hr'
      dsimp only at hr'
      cases hlk : List.lookup sp.organizationGUID cache with
      | some org =>
        rw [hlk] at hr'
        dsimp only at hr'
        rcases List.mem_cons.1 hr' with rfl | hmem
        · exact hhead
        · exact ih cache g htail r' hmem
      | none =>
        rw [hlk] at hr'
        dsimp only at hr'
        cases hE : (c.getOrganization sp.organizationGUID).2.2 with
        | some e2 =>
          rw [hE] at hr'
          simp at hr'
        | none =>
          rw [hE] at hr'
          dsimp only at hr'
          rcases List.mem_cons.1 hr' with rfl | hmem
          · exact hhead
          · exact ih _ g htail r' hmem

theorem resolveBlocks_group (c : CCClient) :
    ∀ (l : List SecGroupSpaces) (cache : List (String × Organization)),
      (resolveBlocks c cache (l.map preRows)).err = none →
      List.Forall₂ (fun (b : List Row) (sg : SecGroupSpaces) =>
          ∀ r ∈ b, r.securityGroup = sg.securityGroup)
        (resolveBlocks c cache (l.map preRows)).blocks l := by
  intro l
  induction l with
  | nil => intro cache _; exact List.Forall₂.nil
  | cons sg rest ih =>
    intro cache herr
    rw [List.map_cons] at herr ⊢
    unfold resolveBlocks at herr ⊢
    dsimp only at herr ⊢
    cases hE : (resolveRows c cache (preRows sg)).err with
    | some e => rw [hE] at herr; simp at herr
    | none =>
      rw [hE] at herr
      dsimp only at herr ⊢
      exact List.Forall₂.cons
        (resolveRows_group c (preRows sg) cache sg.securityGroup (preRows_group sg))
        (ih _ herr)

/-- C4 counterexample: a client whose running space listing returns `space-2`
before `space-1` (their organizations sorting the other way): the listing
emits the rows as `space-1` then `space-2`, not in the source listing's
order. -/
theorem listing_rows_not_in_source_order :
    (outOfOrderClient.getRunningSpacesBySecurityGroup "sg-guid-1").1.map Space.name
        = ["space-2", "space-1"]
    ∧ (GetSecurityGroupsWithOrganizationSpaceAndLifecycle outOfOrderClient).rows.map
        (fun r => r.space.name) = ["space-1", "space-2"]
    ∧ (["space-1", "space-2"] : List String) ≠ ["space-2", "space-1"] :=
  ⟨by decide, by decide, by decide⟩

/-- C4 amended: the listing emits one block of rows per security group, blocks
following the unfiltered security-group listing's order, but within each block
the rows are sorted by organization name, then space name, then lifecycle with
staging before running — not in the raw order of the space listings. -/
theorem listing_rows_sorted_within_group (c : CCClient)
    (gs : List SecurityGroup) (w0 : List String)
    (h0 : c.getSecurityGroups none = (gs, w0, none))
    (hf : (fetchGroupSpaces c gs).err = none)
    (hr : (resolveBlocks c [] ((fetchGroupSpaces c gs).groupSpaces.map preRows)).err = none) :
    (GetSecurityGroupsWithOrganizationSpaceAndLifecycle c).rows
      = ((resolveBlocks c [] ((fetchGroupSpaces c gs).groupSpaces.map preRows)).blocks.map
          sortedBlock).flatten
    ∧ (∀ b ∈ (resolveBlocks c [] ((fetchGroupSpaces c gs).groupSpaces.map preRows)).blocks.map
          sortedBlock, List.Sorted rowLe b)
    ∧ List.Forall₂ (fun (b : List Row) (sg : SecGroupSpaces) =>
          ∀ r ∈ b, r.securityGroup = sg.securityGroup)
        ((resolveBlocks c [] ((fetchGroupSpaces c gs).groupSpaces.map preRows)).blocks.map
          sortedBlock)
        (fetchGroupSpaces c gs).groupSpaces
    ∧ List.Forall₂ (fun (sgs : SecGroupSpaces) (g : SecurityGroup) => sgs.securityGroup = g)
        (fetchGroupSpaces c gs).groupSpaces gs := by
  refine ⟨?_, ?_, ?_, fetchGroupSpaces_groups c gs hf⟩
  · unfold GetSecurityGroupsWithOrganizationSpaceAndLifecycle
    simp [h0, hf, hr]
  · intro b hb
    rcases List.mem_map.1 hb with ⟨b0, _, rfl⟩
    exact List.sorted_insertionSort rowLe b0
  · have hall := resolveBlocks_group c (fetchGroupSpaces c gs).groupSpaces [] hr
    rw [List.forall₂_map_left_iff]
    refine hall.imp ?_
    intro b sg hbs r hrm
    exact hbs r ((List.mem_insertionSort rowLe).1 hrm)

theorem listing_sorted_witness :
    (GetSecurityGroupsWithOrganizationSpaceAndLifecycle outOfOrderClient).rows
      = ((resolveBlocks outOfOrderClient []
            ((fetchGroupSpaces outOfOrderClient
                [⟨"sg-guid-1", "sg-1"⟩]).groupSpaces.map preRows)).blocks.map
          sortedBlock).flatten :=
  (listing_rows_sorted_within_group outOfOrderClient [⟨"sg-guid-1", "sg-1"⟩] ["warning-1"]
    rfl (by decide) (by decide)).1

theorem orgCallArgs_append (t1 t2 : List CCall) :
    orgCallArgs (t1 ++ t2) = orgCallArgs t1 ++ orgCallArgs t2 := by
  simp [orgCallArgs, List.filterMap_append]

theorem boundOrgGUIDs_append (l1 l2 : List RowPre) :
    boundOrgGUIDs (l1 ++ l2) = boundOrgGUIDs l1 ++ boundOrgGUIDs l2 := by
  simp [boundOrgGUIDs, List.filterMap_append]

theorem fetchGroupSpaces_noOrgCalls (c : CCClient) :
    ∀ gs : List SecurityGroup, orgCallArgs (fetchGroupSpaces c gs).trace = [] := by
  intro gs
  induction gs with
  | nil => rfl
  | cons g rest ih =>
    unfold fetchGroupSpaces
    rcases hR : c.getRunningSpacesBySecurityGroup g.guid with ⟨rs, w1, e1⟩
    cases e1 with
    | some e => simp [orgCallArgs, hR]
    | none =>
      rcases hS : c.getStagingSpacesBySecurityGroup g.guid with ⟨ss, w2, e2⟩
      cases e2 with
      | some e => simp [orgCallArgs, hR, hS]
      | none => simpa [orgCallArgs, List.filterMap_cons, hR, hS] using ih

theorem boundOrgGUIDs_cons_none (g : SecurityGroup) (lc : String) (rs : List RowPre) :
    boundOrgGUIDs (⟨g, none, lc⟩ :: rs) = boundOrgGUIDs rs := rfl

theorem boundOrgGUIDs_cons_some (g : SecurityGroup) (sp : Space) (lc : String)
    (rs : List RowPre) :
    boundOrgGUIDs (⟨g, some sp, lc⟩ :: rs) = sp.organizationGUID :: boundOrgGUIDs rs := rfl

theorem orgCallArgs_cons_getOrganization (g : String) (t : List CCall) :
    orgCallArgs ([CCall.getOrganization g] ++ t) = g :: orgCallArgs t := rfl

theorem resolveRows_orgCalls (c : CCClient) :
    ∀ (rows : List RowPre) (cache : List (String × Organization)) (guid : String),
      (resolveRows c cache rows).err = none →
      ((orgCallArgs (resolveRows c cache rows).trace).count guid
          = if guid ∈ boundOrgGUIDs rows ∧ List.lookup guid cache = none then 1 else 0)
      ∧ (List.lookup guid (resolveRows c cache rows).cache = none
          ↔ List.lookup guid cache = none ∧ guid ∉ boundOrgGUIDs rows) := by
  intro rows
  induction rows with
  | nil =>
    intro cache guid _
    constructor
    · simp [resolveRows, orgCallArgs, boundOrgGUIDs]
    · simp [resolveRows, boundOrgGUIDs]
  | cons r rs ih =>
    intro cache guid herr
    obtain ⟨rsg, rspace, rlc⟩ := r
    cases rspace with
    | none =>
      unfold resolveRows at herr ⊢
      dsimp only at herr ⊢
      have h := ih cache guid herr
      exact ⟨by rw [h.1, boundOrgGUIDs_cons_none],
             by rw [h.2, boundOrgGUIDs_cons_none]⟩
    | some sp =>
      unfold resolveRows at herr ⊢
      dsimp only at herr ⊢
      cases hlk : List.lookup sp.organizationGUID cache with
      | some org =>
        try rw [hlk] at herr
        try rw [hlk]
        try dsimp only at herr
        try dsimp only
        have h := ih cache guid herr
        constructor
        · rw [h.1, boundOrgGUIDs_cons_some]
          by_cases hg : guid = sp.organizationGUID
          · subst hg
            rw [if_neg (by rw [hlk]; rintro ⟨-, hc⟩; cases hc),
              if_neg (by rw [hlk]; rintro ⟨-, hc⟩; cases hc)]
          · split_ifs with h1 h2 <;> simp only [List.mem_cons] at * <;> tauto
        · rw [h.2, boundOrgGUIDs_cons_some]
          by_cases hg : guid = sp.organizationGUID
          · subst hg
            rw [hlk]
            simp [List.mem_cons]
          · simp only [List.mem_cons]
            tauto
      | none =>
        try rw [hlk] at herr
        try rw [hlk]
        try dsimp only at herr
        try dsimp only
        cases hE : (c.getOrganization sp.organizationGUID).2.2 with
        | some e2 =>
          try rw [hE] at herr
          simp at herr
        | none =>
          try rw [hE] at herr
          try rw [hE]
          try dsimp only at herr
          try dsimp only
          have h := ih ((sp.organizationGUID, (c.getOrganization sp.organizationGUID).1) :: cache)
            guid herr
          have hself : List.lookup sp.organizationGUID
              ((sp.organizationGUID, (c.getOrganization sp.organizationGUID).1) :: cache)
              = some (c.getOrganization sp.organizationGUID).1 := by
            simp [List.lookup_cons]
          constructor
          · rw [orgCallArgs_cons_getOrganization, boundOrgGUIDs_cons_some]
            by_cases hg : guid = sp.organizationGUID
            · subst hg
              have hz : List.count sp.organizationGUID (orgCallArgs (resolveRows c
                  ((sp.organizationGUID, (c.getOrganization sp.organizationGUID).1) :: cache)
                  rs).trace) = 0 := by
                rw [h.1, if_neg]
                rintro ⟨-, hc⟩
                rw [hself] at hc
                cases hc
              rw [List.count_cons_self, hz, if_pos ⟨List.mem_cons_self _ _, hlk⟩]
            · have hlc : List.lookup guid
                  ((sp.organizationGUID, (c.getOrganization sp.organizationGUID).1) :: cache)
                  = List.lookup guid cache := by
                simp [List.lookup_cons, beq_false_of_ne hg]
              have hcnt : List.count guid (orgCallArgs (resolveRows c
                  ((sp.organizationGUID, (c.getOrganization sp.organizationGUID).1) :: cache)
                  rs).trace)
                  = if guid ∈ boundOrgGUIDs rs ∧ List.lookup guid cache = none
                    then 1 else 0 := by
                rw [h.1]
                by_cases hm : guid ∈ boundOrgGUIDs rs <;>
                  by_cases hp : List.lookup guid cache = none
                · rw [if_pos ⟨hm, hlc.trans hp⟩, if_pos ⟨hm, hp⟩]
                · rw [if_neg (fun hc => hp (hlc.symm.trans hc.2)),
                    if_neg (fun hc => hp hc.2)]
                · rw [if_neg (fun hc => hm hc.1), if_neg (fun hc => hm hc.1)]
                · rw [if_neg (fun hc => hm hc.1), if_neg (fun hc => hm hc.1)]
              rw [List.count_cons_of_ne hg, hcnt]
              split_ifs with h1 h2 <;> simp only [List.mem_cons] at * <;> tauto
          · rw [h.2, boundOrgGUIDs_cons_some]
            by_cases hg : guid = sp.organizationGUID
            · subst hg
              rw [hself, hlk]
              simp [List.mem_cons]
            · have hlc : List.lookup guid
                  ((sp.organizationGUID, (c.getOrganization sp.organizationGUID).1) :: cache)
                  = List.lookup guid cache := by
                simp [List.lookup_cons, beq_false_of_ne hg]
              rw [hlc]
              simp only [List.mem_cons]
              tauto

theorem resolveBlocks_orgCalls (c : CCClient) :
    ∀ (blocks : List (List RowPre)) (cache : List (String × Organization)) (guid : String),
      (resolveBlocks c cache blocks).err = none →
      ((orgCallArgs (resolveBlocks c cache blocks).trace).count guid
          = if guid ∈ boundOrgGUIDs blocks.flatten ∧ List.lookup guid cache = none
            then 1 else 0)
      ∧ (List.lookup guid (resolveBlocks c cache blocks).cache = none
          ↔ List.lookup guid cache = none ∧ guid ∉ boundOrgGUIDs blocks.flatten) := by
  intro blocks
  induction blocks with
  | nil =>
    intro cache guid _
    constructor
    · simp [resolveBlocks, orgCallArgs, boundOrgGUIDs]
    · simp [resolveBlocks, boundOrgGUIDs]
  | cons b bs ih =>
    intro cache guid herr
    unfold resolveBlocks at herr ⊢
    try dsimp only at herr
    try dsimp only
    cases hE : (resolveRows c cache b).err with
    | some e =>
      try rw [hE] at herr
      simp at herr
    | none =>
      try rw [hE] at herr
      try rw [hE]
      try dsimp only at herr
      try dsimp only
      have h1 := resolveRows_orgCalls c b cache guid hE
      have h2 := ih (resolveRows c cache b).cache guid herr
      constructor
      · rw [orgCallArgs_append, List.count_append, h1.1, h2.1, List.flatten_cons,
          boundOrgGUIDs_append]
        split_ifs with c1 c2 c3 <;>
          first
          | rfl
          | (exfalso
             (try simp only [h1.2] at *)
             (try simp only [List.mem_append] at *)
             tauto)
      · rw [h2.2, h1.2, List.flatten_cons, boundOrgGUIDs_append]
        simp only [List.mem_append]
        tauto

theorem firstSeenFrom_cons_mem (seen : List String) (g : String) (l : List String)
    (h : g ∈ seen) : firstSeenFrom seen (g :: l) = firstSeenFrom seen l := by
  simp only [firstSeenFrom]
  rw [if_pos h]

theorem firstSeenFrom_cons_not_mem (seen : List String) (g : String) (l : List String)
    (h : g ∉ seen) :
    firstSeenFrom seen (g :: l) = g :: firstSeenFrom (g :: seen) l := by
  simp only [firstSeenFrom]
  rw [if_neg h]

theorem firstSeenFrom_congr :
    ∀ (l s1 s2 : List String), (∀ g, g ∈ s1 ↔ g ∈ s2) →
      firstSeenFrom s1 l = firstSeenFrom s2 l := by
  intro l
  induction l with
  | nil => intro s1 s2 _; rfl
  | cons a l ih =>
    intro s1 s2 hs
    by_cases ha : a ∈ s1
    · rw [firstSeenFrom_cons_mem s1 a l ha, firstSeenFrom_cons_mem s2 a l ((hs a).mp ha)]
      exact ih s1 s2 hs
    · rw [firstSeenFrom_cons_not_mem s1 a l ha,
        firstSeenFrom_cons_not_mem s2 a l (fun hc => ha ((hs a).mpr hc))]
      rw [ih (a :: s1) (a :: s2) (fun g => by simp only [List.mem_cons, hs g])]

theorem firstSeenFrom_append :
    ∀ (l1 l2 seen : List String),
      firstSeenFrom seen (l1 ++ l2)
        = firstSeenFrom seen l1 ++ firstSeenFrom (l1 ++ seen) l2 := by
  intro l1
  induction l1 with
  | nil => intro l2 seen; rfl
  | cons a l1 ih =>
    intro l2 seen
    rw [List.cons_append]
    by_cases ha : a ∈ seen
    · rw [firstSeenFrom_cons_mem seen a (l1 ++ l2) ha, firstSeenFrom_cons_mem seen a l1 ha,
        ih l2 seen]
      rw [firstSeenFrom_congr l2 (l1 ++ seen) (a :: l1 ++ seen) (fun g => by
        simp only [List.cons_append, List.mem_cons, List.mem_append]
        constructor
        · intro h; exact Or.inr h
        · rintro (rfl | h)
          · exact Or.inr ha
          · exact h)]
    · rw [firstSeenFrom_cons_not_mem seen a (l1 ++ l2) ha,
        firstSeenFrom_cons_not_mem seen a l1 ha, ih l2 (a :: seen)]
      rw [firstSeenFrom_congr l2 (l1 ++ a :: seen) ((a :: l1) ++ seen) (fun g => by
        simp only [List.cons_append, List.mem_cons, List.mem_append]
        tauto)]
      simp only [List.cons_append]

theorem resolveRows_orgSeq (c : CCClient) :
    ∀ (rows : List RowPre) (cache : List (String × Organization)) (seen : List String),
      (∀ g, List.lookup g cache = none ↔ g ∉ seen) →
      (resolveRows c cache rows).err = none →
      orgCallArgs (resolveRows c cache rows).trace
        = firstSeenFrom seen (boundOrgGUIDs rows) := by
  intro rows
  induction rows with
  | nil => intro cache seen _ _; rfl
  | cons r rs ih =>
    intro cache seen hinv herr
    obtain ⟨rsg, rspace, rlc⟩ := r
    cases rspace with
    | none =>
      unfold resolveRows at herr ⊢
      dsimp only at herr ⊢
      rw [boundOrgGUIDs_cons_none]
      exact ih cache seen hinv herr
    | some sp =>
      unfold resolveRows at herr ⊢
      dsimp only at herr ⊢
      rw [boundOrgGUIDs_cons_some]
      cases hlk : List.lookup sp.organizationGUID cache with
      | some org =>
        try rw [hlk] at herr
        try rw [hlk]
        try dsimp only at herr
        try dsimp only
        have hmem : sp.organizationGUID ∈ seen := by
          by_contra hc
          have h2 := (hinv sp.organizationGUID).mpr hc
          rw [hlk] at h2
          cases h2
        rw [firstSeenFrom_cons_mem seen sp.organizationGUID (boundOrgGUIDs rs) hmem]
        exact ih cache seen hinv herr
      | none =>
        try rw [hlk] at herr
        try rw [hlk]
        try dsimp only at herr
        try dsimp only
        cases hE : (c.getOrganization sp.organizationGUID).2.2 with
        | some e2 =>
          try rw [hE] at herr
          simp at herr
        | none =>
          try rw [hE] at herr
          try rw [hE]
          try dsimp only at herr
          try dsimp only
          have hmem : sp.organizationGUID ∉ seen := (hinv sp.organizationGUID).mp hlk
          have hinv2 : ∀ g, List.lookup g
              ((sp.organizationGUID, (c.getOrganization sp.organizationGUID).1) :: cache)
                = none
              ↔ g ∉ sp.organizationGUID :: seen := by
            intro g
            by_cases hg : g = sp.organizationGUID
            · subst hg
              simp [List.lookup_cons, List.mem_cons]
            · have hlc : List.lookup g
                  ((sp.organizationGUID, (c.getOrganization sp.organizationGUID).1) :: cache)
                  = List.lookup g cache := by
                simp [List.lookup_cons, beq_false_of_ne hg]
              rw [hlc, hinv g]
              simp only [List.mem_cons]
              constructor
              · rintro h (h1 | h2)
                · exact hg h1
                · exact h h2
              · intro h hc
                exact h (Or.inr hc)
          rw [orgCallArgs_cons_getOrganization,
            firstSeenFrom_cons_not_mem seen sp.organizationGUID (boundOrgGUIDs rs) hmem,
            ih ((sp.organizationGUID, (c.getOrganization sp.organizationGUID).1) :: cache)
              (sp.organizationGUID :: seen) hinv2 herr]

theorem resolveBlocks_orgSeq (c : CCClient) :
    ∀ (blocks : List (List RowPre)) (cache : List (String × Organization))
      (seen : List String),
      (∀ g, List.lookup g cache = none ↔ g ∉ seen) →
      (resolveBlocks c cache blocks).err = none →
      orgCallArgs (resolveBlocks c cache blocks).trace
        = firstSeenFrom seen (boundOrgGUIDs blocks.flatten) := by
  intro blocks
  induction blocks with
  | nil => intro cache seen _ _; rfl
  | cons b bs ih =>
    intro cache seen hinv herr
    unfold resolveBlocks at herr ⊢
    try dsimp only at herr
    try dsimp only
    cases hE : (resolveRows c cache b).err with
    | some e =>
      try rw [hE] at herr
      simp at herr
    | none =>
      try rw [hE] at herr
      try rw [hE]
      try dsimp only at herr
      try dsimp only
      have h1 := resolveRows_orgSeq c b cache seen hinv hE
      have hinv2 : ∀ g, List.lookup g (resolveRows c cache b).cache = none
          ↔ g ∉ boundOrgGUIDs b ++ seen := by
        intro g
        rw [(resolveRows_orgCalls c b cache g hE).2, hinv g]
        simp only [List.mem_append]
        tauto
      have h2 := ih (resolveRows c cache b).cache (boundOrgGUIDs b ++ seen) hinv2 herr
      rw [orgCallArgs_append, h1, h2, List.flatten_cons, boundOrgGUIDs_append,
        firstSeenFrom_append]

/-- C5 counterexample: one security group bound to two distinct spaces owned by
the same organization GUID: that GUID serves two rows yet the
organization-fetch call is issued once, and its warning appears once, not
twice. -/
theorem listing_org_fetch_not_repeated :
    ((GetSecurityGroupsWithOrganizationSpaceAndLifecycle sharedOrgClient).rows.filter
        (fun r => r.organization.guid == "org-guid-x")).length = 2
    ∧ (orgCallArgs
        (GetSecurityGroupsWithOrganizationSpaceAndLifecycle sharedOrgClient).trace).count
        "org-guid-x" = 1
    ∧ (GetSecurityGroupsWithOrganizationSpaceAndLifecycle sharedOrgClient).warnings.count
        "org-warning" = 1
    ∧ (1 : ℕ) ≠ 2 :=
  ⟨by decide, by decide, by decide, by decide⟩

/-- C5 amended: organization lookups are deduplicated through a cache: on a
successful listing, the sequence of organization-fetch calls recorded in the
trace is exactly the first-appearance deduplication of the organization GUIDs
of the bound pre-rows; hence the fetch for a GUID is issued exactly once when
the GUID backs at least one bound row — at its first appearance — and never
otherwise, not once per space row. -/
theorem listing_org_lookups_deduplicated (c : CCClient)
    (gs : List SecurityGroup) (w0 : List String)
    (h0 : c.getSecurityGroups none = (gs, w0, none))
    (hf : (fetchGroupSpaces c gs).err = none)
    (hr : (resolveBlocks c [] ((fetchGroupSpaces c gs).groupSpaces.map preRows)).err = none) :
    orgCallArgs (GetSecurityGroupsWithOrganizationSpaceAndLifecycle c).trace
      = firstSeen (boundOrgGUIDs (((fetchGroupSpaces c gs).groupSpaces.map preRows).flatten))
    ∧ ∀ guid,
      (orgCallArgs (GetSecurityGroupsWithOrganizationSpaceAndLifecycle c).trace).count guid
        = if guid ∈ boundOrgGUIDs (((fetchGroupSpaces c gs).groupSpaces.map preRows).flatten)
          then 1 else 0 := by
  have hng := fetchGroupSpaces_noOrgCalls c gs
  have htr : orgCallArgs (GetSecurityGroupsWithOrganizationSpaceAndLifecycle c).trace
      = orgCallArgs
          (resolveBlocks c [] ((fetchGroupSpaces c gs).groupSpaces.map preRows)).trace := by
    unfold GetSecurityGroupsWithOrganizationSpaceAndLifecycle
    simp only [h0]
    try dsimp only
    simp only [hf, hr]
    try dsimp only
    rw [orgCallArgs_append, orgCallArgs_append]
    rw [show orgCallArgs [CCall.getSecurityGroups none] = [] from rfl, hng]
    simp
  constructor
  · have hseq := resolveBlocks_orgSeq c ((fetchGroupSpaces c gs).groupSpaces.map preRows)
      [] [] (by intro g; simp) hr
    rw [htr, hseq]
    rfl
  · intro guid
    have h := resolveBlocks_orgCalls c ((fetchGroupSpaces c gs).groupSpaces.map preRows)
      [] guid hr
    rw [htr, h.1]
    by_cases hm : guid ∈ boundOrgGUIDs (((fetchGroupSpaces c gs).groupSpaces.map preRows).flatten)
    · rw [if_pos ⟨hm, rfl⟩, if_pos hm]
    · rw [if_neg (fun hc => hm hc.1), if_neg hm]

theorem listing_dedup_witness :
    orgCallArgs (GetSecurityGroupsWithOrganizationSpaceAndLifecycle sharedOrgClient).trace
        = ["org-guid-x"]
    ∧ (orgCallArgs
        (GetSecurityGroupsWithOrganizationSpaceAndLifecycle sharedOrgClient).trace).count
        "org-guid-x" = 1 := by
  have h := listing_org_lookups_deduplicated sharedOrgClient [⟨"sg-guid-1", "sg-1"⟩]
    ["warning-1"] rfl (by decide) (by decide)
  constructor
  · rw [h.1]
    decide
  · rw [h.2 "org-guid-x"]
    decide

end CFCli
